import Mathlib

/-!
PetNest: the ephemeral UI state of the front end.

A shallow embedding of the notification, adoption-modal, search and chat
scripts of the repository (`src/main.js`, `src/adopt.js`, `src/chat.js`), of the
theme toggles (`src/main.js`, `src/script.js`), of `validateForm` and of the
start-up code of the dashboard (`src/dashboard.js`).

The browser is modelled by a `Page`: a millisecond clock, the children of
`document.body` that the scripts create, the `style` elements they add to
`document.head`, the queue of pending `setTimeout` callbacks, the chat input,
the chat message list, the conversation list, the search box and the opacity of
the pets grid.  Callbacks are defunctionalised into `Action`; user input and
script calls are `Event`s; `tick` advances the clock by one millisecond and
fires the callbacks that are due.  The theme, a form and the dashboard start-up
do not touch the page and have small states of their own.

Only elements that are in the document are tracked, so a write to the style of
a detached element is not observable.  Scroll positions and `console.log` are
not modelled.
-/

namespace PetNest

/-! ## Strings -/

/-- White space and line terminators of ECMAScript, the characters that
`String.prototype.trim` strips. -/
def isJsWhitespace (c : Char) : Bool :=
  c.toNat == 0x09 || c.toNat == 0x0A || c.toNat == 0x0B || c.toNat == 0x0C ||
  c.toNat == 0x0D || c.toNat == 0x20 || c.toNat == 0xA0 || c.toNat == 0x1680 ||
  (decide (0x2000 ≤ c.toNat) && decide (c.toNat ≤ 0x200A)) ||
  c.toNat == 0x2028 || c.toNat == 0x2029 || c.toNat == 0x202F ||
  c.toNat == 0x205F || c.toNat == 0x3000 || c.toNat == 0xFEFF

/-- Characters of a string after `trim()`. -/
def trimChars (l : List Char) : List Char :=
  ((l.dropWhile isJsWhitespace).reverse.dropWhile isJsWhitespace).reverse

/-- The method `String.prototype.trim`. -/
def jsTrim (v : String) : String := String.mk (trimChars v.data)

/-- An input text that is empty or consists only of white space. -/
def isBlank (v : String) : Prop := ∀ c ∈ v.data, isJsWhitespace c = true

instance isBlank.decidable (v : String) : Decidable (isBlank v) := by
  unfold isBlank
  infer_instance

/-! ## Data model -/

/-- The two definitions of `showNotification` in `src/main.js`:
`dashboard` is the one at lines 160-212 (the close button plays the closing
animation), `site` the one at lines 346-413 (the close button removes the
element at once).  A page loads one of them. -/
inductive NotifImpl where
  | dashboard
  | site
  deriving DecidableEq, Repr

/-- What an element created by the scripts is. -/
inductive ElemKind where
  | notification
  | modalOverlay
  deriving DecidableEq, Repr

/-- A child of `document.body` created by `showNotification` or
`showAdoptionModal`.  `text` is the message or pet name interpolated into
`innerHTML`, `icon` the icon class of the dashboard notification,
`contentAnimation` the animation of the `.modal-content` child. -/
structure Element where
  id : Nat
  kind : ElemKind
  className : String
  text : String
  icon : String
  borderLeft : String
  animation : String
  contentAnimation : String
  deriving DecidableEq, Repr

/-- A child of `.chat-messages`: its class, the text of its paragraph and the
clock value that `getCurrentTime()` formats.  For a message of fixed markup
`timeText` is the literal text of its `.message-time` span (empty when it has
none) and `time` is not used. -/
structure Message where
  className : String
  text : String
  time : Nat
  timeText : Option String := none
  deriving DecidableEq, Repr

/-- An entry of the conversation list (`.chat-item`, `.conversation`): the text
of its `h4`, its `data-chat` attribute, whether it carries the class `active`,
and the text of its `.chat-badge` child when it has one. -/
structure ChatItem where
  userName : String
  dataChat : String
  active : Bool
  badge : Option String
  deriving DecidableEq, Repr

/-- The callbacks handed to `setTimeout`. -/
inductive Action where
  /-- The 5000 ms callback of `showNotification`. -/
  | autoRemove (id : Nat)
  /-- The callbacks `() => notification.remove()` and `() => modal.remove()`. -/
  | removeElement (id : Nat)
  /-- The function `simulateReply` of `src/chat.js`. -/
  | simulateReply
  /-- The 1000 ms callback of the confirm button, `src/adopt.js` 185-188. -/
  | notifyChat (petName : String)
  /-- The `setInterval` callback of `simulateIncomingMessages`, `src/chat.js`
  131-180; firing it schedules the next firing 30000 ms later. -/
  | idleCheck
  /-- The 500 ms callback of `loadConversation`, `src/chat.js` 291-310. -/
  | conversationLoaded
  /-- The 800 ms callback of `performSearch`, `src/adopt.js` 99-107. -/
  | searchDone (searchTerm : String)
  deriving DecidableEq, Repr

/-- A pending `setTimeout`: the clock value at which it fires and its callback. -/
structure Timer where
  due : Nat
  action : Action
  deriving DecidableEq, Repr

/-- A value returned by `Math.random()`: a number in `[0, 1)`, taken as an exact
rational. -/
structure Draw where
  val : ℚ
  nonneg : 0 ≤ val
  lt_one : val < 1

/-- The state of a page.  `rand` is the sequence of values `Math.random()` will
return and `drawn` how many were consumed; `timers` is in registration order. -/
structure Page where
  now : Nat
  nextId : Nat
  notifImpl : NotifImpl
  rand : Nat → Draw
  drawn : Nat
  head : List String
  body : List Element
  timers : List Timer
  chatInput : String
  chatMessages : List Message
  chatItems : List ChatItem
  searchBox : String
  petsGridOpacity : String

/-! ## DOM and host primitives -/

/-- The test `node.parentNode` for a created element. -/
def isAttached (id : Nat) (s : Page) : Bool := s.body.any (fun e => e.id == id)

/-- The call `document.body.appendChild(e)`. -/
def appendChild (e : Element) (s : Page) : Page :=
  { s with body := s.body ++ [e] }

/-- The method `node.remove()`. -/
def removeElement (id : Nat) (s : Page) : Page :=
  { s with body := s.body.filter (fun e => e.id != id) }

/-- The assignment `node.style.animation = a`. -/
def setAnimation (id : Nat) (a : String) (s : Page) : Page :=
  { s with body := s.body.map (fun e => if e.id == id then { e with animation := a } else e) }

/-- The assignment `modalContent.style.animation = a`. -/
def setContentAnimation (id : Nat) (a : String) (s : Page) : Page :=
  { s with body :=
      s.body.map (fun e => if e.id == id then { e with contentAnimation := a } else e) }

/-- The call `setTimeout(callback, delay)`. -/
def setTimeout (delay : Nat) (a : Action) (s : Page) : Page :=
  { s with timers := s.timers ++ [{ due := s.now + delay, action := a }] }

/-- The call `Math.random()`. -/
def random (s : Page) : Draw × Page :=
  (s.rand s.drawn, { s with drawn := s.drawn + 1 })

/-- Adds a `style` element with the given id to `document.head` unless
`document.querySelector` finds one. -/
def ensureStyle (styleId : String) (s : Page) : Page :=
  if s.head.contains styleId then s else { s with head := s.head ++ [styleId] }

/-! ## Notifications (`src/main.js`) -/

/-- The element built by `showNotification` of lines 160-212. -/
def dashboardNotification (id : Nat) (message type : String) : Element :=
  { id := id
    kind := ElemKind.notification
    className := "notification notification-" ++ type
    text := message
    icon := if type = "success" then "check-circle"
            else if type = "error" then "exclamation-circle" else "info-circle"
    borderLeft := if type = "success" then "4px solid #48BB78"
                  else if type = "error" then "4px solid #F56565"
                  else "4px solid #4299E1"
    animation := "slideInRight 0.3s ease"
    contentAnimation := "" }

/-- The function `showNotification` of lines 160-212. -/
def showNotificationDashboard (message type : String) (s : Page) : Page :=
  let id := s.nextId
  let s := appendChild (dashboardNotification id message type) { s with nextId := id + 1 }
  setTimeout 5000 (Action.autoRemove id) s

/-- The element built by `showNotification` of lines 346-413. -/
def siteNotification (id : Nat) (message type : String) : Element :=
  { id := id
    kind := ElemKind.notification
    className := "notification notification-" ++ type
    text := message
    icon := ""
    borderLeft := ""
    animation := ""
    contentAnimation := "" }

/-- The function `showNotification` of lines 346-413. -/
def showNotificationSite (message type : String) (s : Page) : Page :=
  let id := s.nextId
  let s := ensureStyle "notification-styles" { s with nextId := id + 1 }
  let s := appendChild (siteNotification id message type) s
  setTimeout 5000 (Action.autoRemove id) s

/-- The global `showNotification` of the page. -/
def showNotification (message type : String) (s : Page) : Page :=
  match s.notifImpl with
  | NotifImpl.dashboard => showNotificationDashboard message type s
  | NotifImpl.site => showNotificationSite message type s

/-- The closing animation each definition assigns. -/
def closingAnimation : NotifImpl → String
  | NotifImpl.dashboard => "slideOutRight 0.3s ease"
  | NotifImpl.site => "slideOut 0.3s ease"

/-- The 5000 ms callback: lines 206-211 and 402-407. -/
def autoRemove (id : Nat) (s : Page) : Page :=
  if isAttached id s then
    setTimeout 300 (Action.removeElement id) (setAnimation id (closingAnimation s.notifImpl) s)
  else s

/-- The click listener of `.notification-close`: lines 200-203 and 410-412. -/
def closeHandler (id : Nat) (s : Page) : Page :=
  match s.notifImpl with
  | NotifImpl.dashboard =>
      setTimeout 300 (Action.removeElement id) (setAnimation id "slideOutRight 0.3s ease" s)
  | NotifImpl.site => removeElement id s

/-! ## Adoption modal (`src/adopt.js`) -/

/-- The overlay built by `showAdoptionModal`. -/
def adoptionOverlay (id : Nat) (petName : String) : Element :=
  { id := id
    kind := ElemKind.modalOverlay
    className := "modal-overlay"
    text := petName
    icon := ""
    borderLeft := ""
    animation := "fadeIn 0.3s ease"
    contentAnimation := "scaleIn 0.3s ease" }

/-- The function `showAdoptionModal`, lines 110-261. -/
def showAdoptionModal (petName : String) (s : Page) : Page :=
  let id := s.nextId
  let s := appendChild (adoptionOverlay id petName) { s with nextId := id + 1 }
  ensureStyle "modal-animations" s

/-- The inner function `closeModal`, lines 168-172. -/
def closeModal (id : Nat) (s : Page) : Page :=
  let s := setAnimation id "fadeOut 0.3s ease" s
  let s := setContentAnimation id "scaleOut 0.3s ease" s
  setTimeout 300 (Action.removeElement id) s

/-- The click listener of `#confirmAdoption`, lines 179-189. -/
def confirmHandler (id : Nat) (petName : String) (s : Page) : Page :=
  let s := showNotification ("Adoption process started for " ++ petName ++ "!") "success" s
  let s := closeModal id s
  setTimeout 1000 (Action.notifyChat petName) s

/-! ## Chat (`src/chat.js`) -/

/-- The array `replies` of `simulateReply`. -/
def replies : List String :=
  [ "Thanks for your message!",
    "I\x27ll get back to you shortly.",
    "That\x27s a great question! Let me check.",
    "I\x27m available to meet this weekend.",
    "The pet is still available for adoption." ]

/-- The expression `1000 + Math.random() * 2000`. -/
def replyDelay (r : Draw) : ℚ := 1000 + r.val * 2000

/-- The conversion of a `setTimeout` delay to whole milliseconds. -/
def toMillis (d : ℚ) : Nat := (Int.floor d).toNat

/-- The expression `Math.floor(Math.random() * replies.length)`. -/
def replyIndex (r : Draw) : Nat := (Int.floor (r.val * (replies.length : ℚ))).toNat

/-- The function `simulateReply`, lines 101-127.  An index outside the array
reads `undefined`, which the template prints as such. -/
def simulateReply (s : Page) : Page :=
  let (r, s) := random s
  let randomReply := (replies.get? (replyIndex r)).getD "undefined"
  { s with chatMessages :=
      s.chatMessages ++ [{ className := "message received", text := randomReply, time := s.now }] }

/-- The global function `sendMessage`, lines 70-99. -/
def sendMessage (s : Page) : Page :=
  let message := jsTrim s.chatInput
  if message = "" then s
  else
    let s : Page := { s with
      chatMessages :=
        s.chatMessages ++ [{ className := "message sent", text := message, time := s.now }] }
    let s : Page := { s with chatInput := "" }
    let (r, s) := random s
    setTimeout (toMillis (replyDelay r)) Action.simulateReply s

/-- The function `sendMessage` inside `initChat`, lines 213-238. -/
def initChat_sendMessage (s : Page) : Page :=
  let message := jsTrim s.chatInput
  if message ≠ "" then
    let s : Page := { s with
      chatMessages :=
        s.chatMessages ++ [{ className := "message sent", text := message, time := s.now }] }
    { s with chatInput := "" }
  else s

/-! ## Chat: conversation list and idle check (`src/chat.js`) -/

/-- The array `prompts` of the idle check. -/
def prompts : List String :=
  [ "Hi! Are you still interested in adopting?",
    "I wanted to follow up about our conversation.",
    "The pet is still available if you\x27re interested!",
    "Let me know if you have any other questions." ]

/-- The expression `Math.floor(Math.random() * prompts.length)`. -/
def promptIndex (r : Draw) : Nat := (Int.floor (r.val * (prompts.length : ℚ))).toNat

/-- The class names of a `className`, split at white space. -/
def classesOf : List Char → List Char → List (List Char)
  | [], cur => if cur.isEmpty then [] else [cur.reverse]
  | c :: cs, cur =>
      if isJsWhitespace c then
        (if cur.isEmpty then classesOf cs [] else cur.reverse :: classesOf cs [])
      else classesOf cs (c :: cur)

/-- The test `element.matches('.' + name)`. -/
def hasClass (name : String) (className : String) : Bool :=
  (classesOf className.data []).contains name.data

/-- The value of a digit in the given radix. -/
def digitValue (radix : Nat) (c : Char) : Option Nat :=
  let v : Option Nat :=
    if c.isDigit then some (c.toNat - 48)
    else if decide (97 ≤ c.toNat) && decide (c.toNat ≤ 122) then some (c.toNat - 87)
    else if decide (65 ≤ c.toNat) && decide (c.toNat ≤ 90) then some (c.toNat - 55)
    else none
  v.bind (fun d => if d < radix then some d else none)

/-- The longest run of digits at the start of the text, as a number; `none`
when the text starts with no digit. -/
def parseDigits (radix : Nat) : List Char → Option Nat → Option Nat
  | [], acc => acc
  | c :: cs, acc =>
      match digitValue radix c with
      | some d => parseDigits radix cs (some (acc.getD 0 * radix + d))
      | none => acc

/-- The function `parseInt` with one argument; `none` stands for `NaN`.  Numbers
are exact integers. -/
def parseInt (text : String) : Option Int :=
  let l := text.data.dropWhile isJsWhitespace
  let (negative, l) :=
    match l with
    | '-' :: rest => (true, rest)
    | '+' :: rest => (false, rest)
    | _ => (false, l)
  let (radix, l) :=
    match l with
    | '0' :: 'x' :: rest => (16, rest)
    | '0' :: 'X' :: rest => (16, rest)
    | _ => (10, l)
  (parseDigits radix l none).map (fun n => if negative then -(n : Int) else (n : Int))

/-- The badge update of the idle check, lines 170-177: a missing badge is
created empty, `parseInt(badge.textContent) || 0` is incremented. -/
def bumpBadge (item : ChatItem) : ChatItem :=
  let currentCount := (parseInt (item.badge.getD "")).getD 0
  { item with badge := some (toString (currentCount + 1)) }

/-- Applies `f` to the first element that satisfies `p`, as a write to the
result of `querySelector`. -/
def updateFirst {α : Type} (p : α → Bool) (f : α → α) : List α → List α
  | [] => []
  | x :: xs => if p x then f x :: xs else x :: updateFirst p f xs

/-- The injection branch of the idle check, lines 142-178. -/
def injectPrompt (s : Page) : Page :=
  let (r, s) := random s
  let randomPrompt := (prompts.get? (promptIndex r)).getD "undefined"
  let s : Page := { s with chatMessages :=
    s.chatMessages ++ [{ className := "message received", text := randomPrompt, time := s.now }] }
  { s with chatItems := updateFirst (fun c => c.active) bumpBadge s.chatItems }

/-- The idle check after its two clock reads, lines 138-179: `lastMessageTime`
and `now` are the values of the two `new Date()`. -/
def idleCheckBody (lastMessageTime now : Nat) (s : Page) : Page :=
  let diffMinutes : ℚ := ((now : ℚ) - (lastMessageTime : ℚ)) / (1000 * 60)
  if 2 < diffMinutes then
    let (r, s) := random s
    if r.val < 3 / 10 then injectPrompt s else s
  else s

/-- The callback of `simulateIncomingMessages`, lines 131-180.  Both
`new Date()` read the clock of the page. -/
def idleCheck (s : Page) : Page :=
  match s.chatMessages.getLast? with
  | none => s
  | some lastMessage =>
      if hasClass "message" lastMessage.className && hasClass "sent" lastMessage.className then
        let lastMessageTime := s.now
        let now := s.now
        idleCheckBody lastMessageTime now s
      else s

/-- The function `simulateIncomingMessages`: registers the 30000 ms interval. -/
def simulateIncomingMessages (s : Page) : Page := setTimeout 30000 Action.idleCheck s

/-- The class changes of a click on an entry of the conversation list: `active`
is removed from all entries and added to the clicked one. -/
def activate (i : Nat) (items : List ChatItem) : List ChatItem :=
  let items := items.map (fun c => { c with active := false })
  match items.get? i with
  | some item => items.set i { item with active := true }
  | none => items

/-- The click listener of a `.chat-item`, lines 6-15. -/
def chatItemClick (i : Nat) (s : Page) : Page :=
  match s.chatItems.get? i with
  | none => s
  | some item =>
      let s : Page := { s with chatItems := activate i s.chatItems }
      showNotification ("Loading conversation with " ++ item.userName) "info" s

/-- The placeholder `loadConversation` writes first. -/
def loadingMessages : List Message :=
  [ { className := "message received", text := "Loading conversation...", time := 0,
      timeText := some "" } ]

/-- The conversation `loadConversation` writes after 500 ms. -/
def loadedMessages : List Message :=
  [ { className := "message received", text := "Hello! I\x27m interested in your pet listing.",
      time := 0, timeText := some "10:30 AM" },
    { className := "message sent",
      text := "Thanks for your interest! What would you like to know?",
      time := 0, timeText := some "10:32 AM" } ]

/-- The function `loadConversation`, lines 278-311. -/
def loadConversation (_chatId : String) (s : Page) : Page :=
  let s : Page := { s with chatMessages := loadingMessages }
  setTimeout 500 Action.conversationLoaded s

/-- The 500 ms callback of `loadConversation`. -/
def conversationLoaded (s : Page) : Page := { s with chatMessages := loadedMessages }

/-- The click listener of a `.conversation` in `initChat`, lines 197-206. -/
def conversationClick (i : Nat) (s : Page) : Page :=
  match s.chatItems.get? i with
  | none => s
  | some item =>
      let s : Page := { s with chatItems := activate i s.chatItems }
      loadConversation item.dataChat s

/-! ## Search (`src/adopt.js`) -/

/-- The 800 ms callback of `performSearch`, lines 99-107. -/
def searchDone (searchTerm : String) (s : Page) : Page :=
  let s : Page := { s with petsGridOpacity := "1" }
  showNotification ("Found results for \"" ++ searchTerm ++ "\"") "success" s

/-- The function `performSearch`, lines 86-108. -/
def performSearch (s : Page) : Page :=
  let searchTerm := s.searchBox
  if jsTrim searchTerm = "" then showNotification "Please enter a search term" "error" s
  else
    let s : Page := { s with petsGridOpacity := "0.5" }
    setTimeout 800 (Action.searchDone searchTerm) s

/-! ## Event loop -/

/-- Runs a timer callback. -/
def fire (a : Action) (s : Page) : Page :=
  match a with
  | Action.autoRemove id => autoRemove id s
  | Action.removeElement id => removeElement id s
  | Action.simulateReply => simulateReply s
  | Action.notifyChat petName =>
      showNotification ("You can now chat with " ++ petName ++ "\x27s owner") "info" s
  | Action.idleCheck => setTimeout 30000 Action.idleCheck (idleCheck s)
  | Action.conversationLoaded => conversationLoaded s
  | Action.searchDone searchTerm => searchDone searchTerm s

/-- Runs callbacks one after the other. -/
def fireAll (l : List Timer) (s : Page) : Page :=
  l.foldl (fun st t => fire t.action st) s

/-- One millisecond passes: the timers that are due leave the queue and their
callbacks run in registration order (the order of their due times when ticks are
the only way the clock moves, since then all of them are due at the new clock
value).  Callbacks fire exactly when due; a timer scheduled by a callback has a
positive delay and waits for a later tick. -/
def tick (s : Page) : Page :=
  let now := s.now + 1
  fireAll (s.timers.filter (fun t => decide (t.due ≤ now)))
    { s with now := now, timers := s.timers.filter (fun t => !decide (t.due ≤ now)) }

/-- The element with the given id and kind, when it is in the document. -/
def findElement (id : Nat) (k : ElemKind) (s : Page) : Option Element :=
  s.body.find? (fun e => e.id == id && e.kind == k)

/-- What happens to a page: time passing, script calls and user input.  A button
can be clicked only while its element is in the document. -/
inductive Event where
  | tick
  | callShowNotification (message type : String)
  | clickNotificationClose (id : Nat)
  | typeChatInput (value : String)
  | clickSend
  | clickSendButton
  | callShowAdoptionModal (petName : String)
  | clickModalClose (id : Nat)
  | clickConfirmAdoption (id : Nat)
  | clickChatItem (index : Nat)
  | clickConversation (index : Nat)
  | typeSearch (value : String)
  | clickSearch
  deriving DecidableEq, Repr

/-- The effect of one event. -/
def step (ev : Event) (s : Page) : Page :=
  match ev with
  | Event.tick => tick s
  | Event.callShowNotification message type => showNotification message type s
  | Event.clickNotificationClose id =>
      match findElement id ElemKind.notification s with
      | some _ => closeHandler id s
      | none => s
  | Event.typeChatInput value => { s with chatInput := value }
  | Event.clickSend => sendMessage s
  | Event.clickSendButton => initChat_sendMessage s
  | Event.callShowAdoptionModal petName => showAdoptionModal petName s
  | Event.clickModalClose id =>
      match findElement id ElemKind.modalOverlay s with
      | some _ => closeModal id s
      | none => s
  | Event.clickConfirmAdoption id =>
      match findElement id ElemKind.modalOverlay s with
      | some e => confirmHandler id e.text s
      | none => s
  | Event.clickChatItem index => chatItemClick index s
  | Event.clickConversation index => conversationClick index s
  | Event.typeSearch value => { s with searchBox := value }
  | Event.clickSearch => performSearch s

/-- The effect of a sequence of events. -/
def run (evs : List Event) (s : Page) : Page :=
  evs.foldl (fun st ev => step ev st) s

/-- Milliseconds that pass during a sequence of events. -/
def elapsed (evs : List Event) : Nat := evs.count Event.tick

/-- The element an action acts on. -/
def Action.target : Action → Option Nat
  | Action.autoRemove id => some id
  | Action.removeElement id => some id
  | Action.simulateReply => none
  | Action.notifyChat _ => none
  | Action.idleCheck => none
  | Action.conversationLoaded => none
  | Action.searchDone _ => none

/-- Ids are allocated from `nextId`: every element of the document and every
element a pending callback refers to was created earlier. -/
def WellFormed (s : Page) : Prop :=
  (∀ e ∈ s.body, e.id < s.nextId) ∧
  (∀ t ∈ s.timers, ∀ id, t.action.target = some id → id < s.nextId)

/-- A page just loaded: nothing created, nothing pending. -/
def freshPage (impl : NotifImpl) (r : Draw) : Page :=
  { now := 0, nextId := 0, notifImpl := impl, rand := fun _ => r, drawn := 0,
    head := [], body := [], timers := [], chatInput := "", chatMessages := [],
    chatItems := [], searchBox := "", petsGridOpacity := "" }

/-- The draw `0`. -/
def drawZero : Draw := { val := 0, nonneg := le_refl 0, lt_one := by norm_num }

/-- The notification elements of the document whose class names the given type. -/
def notificationsOfType (type : String) (s : Page) : List Element :=
  s.body.filter (fun e =>
    e.kind == ElemKind.notification && e.className == "notification notification-" ++ type)

/-- The adoption-modal overlays of the document. -/
def modalOverlays (s : Page) : List Element :=
  s.body.filter (fun e => e.kind == ElemKind.modalOverlay)

/-! ## Observations and relations used in the statements -/

/-- A page whose chat input holds three spaces. -/
def blankInputPage : Page :=
  { freshPage NotifImpl.dashboard drawZero with chatInput := "   " }

/-- The element `showNotification` builds on the page. -/
def newNotification (message type : String) (s : Page) : Element :=
  match s.notifImpl with
  | NotifImpl.dashboard => dashboardNotification s.nextId message type
  | NotifImpl.site => siteNotification s.nextId message type

/-- Relation between a page and a later one: ids are only allocated upwards, the
loaded `showNotification` stays, and every element of the later document is an
earlier element (same id and kind) or was created in between. -/
def Grows (s s' : Page) : Prop :=
  s.nextId ≤ s'.nextId ∧ s'.notifImpl = s.notifImpl ∧
  ∀ e ∈ s'.body, (∃ e₀ ∈ s.body, e₀.id = e.id ∧ e₀.kind = e.kind) ∨
    (s.nextId ≤ e.id ∧ e.id < s'.nextId)

/-- Relation between a page and the page after a callback or a non-tick event:
the clock stands still and no pending timer is cancelled. -/
def Keeps (s s' : Page) : Prop :=
  s'.now = s.now ∧ ∀ t ∈ s.timers, t ∈ s'.timers

/-- The page on which the due callbacks of a tick run: the clock is advanced and
the due timers have left the queue. -/
def tickStart (s : Page) : Page :=
  { s with now := s.now + 1, timers := s.timers.filter (fun t => !decide (t.due ≤ s.now + 1)) }

/-- The timers that fire in the next tick. -/
def dueTimers (s : Page) : List Timer :=
  s.timers.filter (fun t => decide (t.due ≤ s.now + 1))

/-- Whether a timer acts on the element `n`. -/
def targets (n : Nat) (t : Timer) : Bool := t.action.target == some n

/-- The pending timers that act on the element `n`, in registration order. -/
def timersFor (n : Nat) (s : Page) : List Timer := s.timers.filter (targets n)

/-- Relation between two pages that agree on the element `n`: whether it is in
the document and which timers act on it. -/
def Frame (n : Nat) (s s' : Page) : Prop :=
  isAttached n s' = isAttached n s ∧ timersFor n s' = timersFor n s

/-- Whether a timer is a scheduled `simulateReply`. -/
def isReply (t : Timer) : Bool :=
  match t.action with
  | Action.simulateReply => true
  | _ => false

/-- The scheduled replies that have not fired yet, in registration order. -/
def replyTimers (s : Page) : List Timer := s.timers.filter isReply

/-- The number of `message received` elements in the message list. -/
def received (s : Page) : Nat :=
  (s.chatMessages.filter (fun m => m.className == "message received")).length

/-- The page after the user types `v₁` and sends, waits `k` ms, types `v₂` and
sends again. -/
def sendTwice (v₁ v₂ : String) (k : Nat) (s : Page) : Page :=
  sendMessage
    { run (List.replicate k Event.tick) (sendMessage { s with chatInput := v₁ }) with
      chatInput := v₂ }

/-- No `loadConversation` callback is pending. -/
def NoLoadPending (s : Page) : Prop :=
  ∀ t ∈ s.timers, t.action ≠ Action.conversationLoaded

/-- A fresh dashboard page on which the adoption modal for `Max` was opened. -/
def openModalPage : Page :=
  showAdoptionModal "Max" (freshPage NotifImpl.dashboard drawZero)

/-- The page `openModalPage` after one click on the confirm button. -/
def confirmedPage : Page := step (Event.clickConfirmAdoption 0) openModalPage

/-- How a call ends: the page it leaves and the exception it threw, if any. -/
structure Completion where
  page : Page
  thrown : Option String

/-- The click listener of `#confirmAdoption`, lines 179-189, with the global
`showNotification` it calls taken as a parameter that may throw.  The listener
has no `try`: an exception thrown by the call ends it, and the statements after
the call do not run. -/
def confirmListener (notify : String → String → Page → Completion) (id : Nat)
    (petName : String) (s : Page) : Completion :=
  let c := notify ("Adoption process started for " ++ petName ++ "!") "success" s
  match c.thrown with
  | some err => { page := c.page, thrown := some err }
  | none =>
      { page := setTimeout 1000 (Action.notifyChat petName) (closeModal id c.page),
        thrown := none }

/-- The `showNotification` of the repository: it returns normally. -/
def notifyNormally (message type : String) (s : Page) : Completion :=
  { page := showNotification message type s, thrown := none }

/-- A page on which the name `showNotification` is not bound: the call throws
a `ReferenceError` and changes nothing. -/
def notifyUnbound (_message _type : String) (s : Page) : Completion :=
  { page := s, thrown := some "ReferenceError: showNotification is not defined" }

/-- Whether an event is a click on a button of the element `n`. -/
def clicksOn (n : Nat) : Event → Bool
  | Event.clickNotificationClose m => m == n
  | Event.clickModalClose m => m == n
  | Event.clickConfirmAdoption m => m == n
  | _ => false

/-- The state of the overlay `n`, whose removal was scheduled at clock value
`t₀`, after `k` milliseconds without a click on its buttons: until 300 ms it is
in the document with its removal callback pending; from 300 ms on it is out. -/
def Closing (n t₀ k : Nat) (s : Page) : Prop :=
  n < s.nextId ∧ s.now = t₀ + k ∧
  ((k < 300 ∧ isAttached n s = true ∧
      timersFor n s = [{ due := t₀ + 300, action := Action.removeElement n }]) ∨
   (300 ≤ k ∧ isAttached n s = false))

/-- The draw `1/10`, below the threshold `0.3` of the idle check. -/
def drawTenth : Draw := { val := 1 / 10, nonneg := by norm_num, lt_one := by norm_num }

/-- A chat page three minutes after its only message was sent: the clock reads
180000 ms, the message carries the time 0, the active conversation shows the
badge `2`, and every draw is `1/10`. -/
def idlePage : Page :=
  { freshPage NotifImpl.dashboard drawTenth with
    now := 180000
    chatMessages := [{ className := "message sent", text := "hi", time := 0 }]
    chatItems := [{ userName := "Sarah", dataChat := "1", active := true, badge := some "2" }] }

/-- The unread count a badge shows, read as the idle check reads it:
`parseInt(badge.textContent) || 0`, and 0 without a badge. -/
def unreadCount (item : ChatItem) : Int := (parseInt (item.badge.getD "")).getD 0

/-- A chat page whose only conversation is not selected and shows the badge `3`. -/
def unreadPage : Page :=
  { freshPage NotifImpl.dashboard drawZero with
    chatItems := [{ userName := "Sarah", dataChat := "1", active := false, badge := some "3" }] }

/-- A page whose search box holds two spaces. -/
def blankSearchPage : Page :=
  { freshPage NotifImpl.site drawZero with searchBox := "  " }

/-! ## Theme (`src/main.js`, `src/script.js`) -/

/-- The theme of a page: the `data-theme` attribute (of `body` or of the root
element), whether `body` carries the class `dark-mode`, whether
`#darkModeToggle` is checked, the class of the icon of `#theme-toggle-btn`, and
the entry `theme` of local storage. -/
structure ThemeState where
  dataTheme : Option String
  darkMode : Bool
  checked : Bool
  icon : String
  stored : Option String
  deriving DecidableEq, Repr

/-- The expression `localStorage.getItem('theme') || 'light'`. -/
def storedOrLight (s : ThemeState) : String :=
  match s.stored with
  | some v => if v = "" then "light" else v
  | none => "light"

/-- The click listener of `.theme-toggle`, `src/main.js` 6-14. -/
def themeToggleClick (s : ThemeState) : ThemeState :=
  if s.dataTheme = some "dark" then { s with dataTheme := none, stored := none }
  else { s with dataTheme := some "dark", stored := some "dark" }

/-- The start-up code next to it, `src/main.js` 17-19. -/
def themeToggleLoad (s : ThemeState) : ThemeState :=
  if s.stored = some "dark" then { s with dataTheme := some "dark" } else s

/-- The change listener of `#darkModeToggle`, `src/main.js` 70-78. -/
def darkModeToggleChange (s : ThemeState) : ThemeState :=
  if s.checked then { s with dataTheme := some "dark", stored := some "dark" }
  else { s with dataTheme := none, stored := some "light" }

/-- The user toggles `#darkModeToggle`: the box changes its state, then the
change listener runs. -/
def darkModeToggleFlip (s : ThemeState) : ThemeState :=
  darkModeToggleChange { s with checked := !s.checked }

/-- The start-up code next to it, `src/main.js` 62-68. -/
def darkModeToggleLoad (s : ThemeState) : ThemeState :=
  if storedOrLight s = "dark" then { s with dataTheme := some "dark", checked := true } else s

/-- The function `updateThemeIcon`, `src/main.js` 274-284. -/
def updateThemeIcon (theme : String) (s : ThemeState) : ThemeState :=
  { s with icon := if theme = "dark" then "fas fa-sun" else "fas fa-moon" }

/-- The click listener installed by `initTheme`, `src/main.js` 262-270. -/
def initThemeClick (s : ThemeState) : ThemeState :=
  let currentTheme := s.dataTheme
  let newTheme := if currentTheme = some "light" then "dark" else "light"
  let s : ThemeState := { s with dataTheme := some newTheme }
  let s : ThemeState := { s with stored := some newTheme }
  updateThemeIcon newTheme s

/-- The start-up part of `initTheme`, `src/main.js` 253-260. -/
def initTheme (s : ThemeState) : ThemeState :=
  let currentTheme := storedOrLight s
  updateThemeIcon currentTheme { s with dataTheme := some currentTheme }

/-- The click listener of `#themeToggle`, `src/script.js` 13-17. -/
def themeToggleButtonClick (s : ThemeState) : ThemeState :=
  let s : ThemeState := { s with darkMode := !s.darkMode }
  let isDark := s.darkMode
  { s with stored := some (if isDark then "dark" else "light") }

/-- The start-up code next to it, `src/script.js` 11-12. -/
def themeToggleButtonLoad (s : ThemeState) : ThemeState :=
  if storedOrLight s = "dark" then { s with darkMode := true } else s

/-- The theme displayed on a page styled by the `data-theme` attribute. -/
def shownByAttribute (s : ThemeState) : String :=
  if s.dataTheme = some "dark" then "dark" else "light"

/-- The theme displayed on a page styled by the class `dark-mode`. -/
def shownByClass (s : ThemeState) : String :=
  if s.darkMode then "dark" else "light"

/-- A page in dark mode with `dark` stored. -/
def darkTheme : ThemeState :=
  { dataTheme := some "dark", darkMode := true, checked := true, icon := "fas fa-sun",
    stored := some "dark" }

/-! ## Form validation (`src/main.js`) -/

/-- A descendant of a form: its tag name, whether it carries the attribute
`required`, its value and the inline `border-color`. -/
structure FormField where
  tag : String
  required : Bool
  value : String
  borderColor : String
  deriving DecidableEq, Repr

/-- The selector `input[required], select[required], textarea[required]`. -/
def isRequiredControl (f : FormField) : Bool :=
  f.required && (f.tag == "input" || f.tag == "select" || f.tag == "textarea")

/-- One step of the `forEach` of `validateForm`, lines 333-340, on the flag
`isValid` and the fields already visited; a field the selector does not match is
passed over. -/
def validateField (acc : Bool × List FormField) (f : FormField) : Bool × List FormField :=
  if isRequiredControl f then
    if jsTrim f.value = "" then
      (false, acc.2 ++ [{ f with borderColor := "var(--error-color)" }])
    else (acc.1, acc.2 ++ [{ f with borderColor := "" }])
  else (acc.1, acc.2 ++ [f])

/-- The function `validateForm`, lines 329-343: the returned flag and the fields
of the form after the call, in document order. -/
def validateForm (form : List FormField) : Bool × List FormField :=
  form.foldl validateField (true, [])

/-- What `validateForm` does to one field. -/
def markField (f : FormField) : FormField :=
  if isRequiredControl f then
    { f with borderColor := if jsTrim f.value = "" then "var(--error-color)" else "" }
  else f

/-- A form with a required name that is blank, a required e-mail and an optional
note. -/
def sampleForm : List FormField :=
  [ { tag := "input", required := true, value := "  ", borderColor := "" },
    { tag := "input", required := true, value := "a@b.c", borderColor := "red" },
    { tag := "textarea", required := false, value := "", borderColor := "blue" } ]

/-! ## Dashboard start-up (`src/dashboard.js`) -/

/-- What the start-up code of the dashboard sees: how many `.activity-item`,
`.stat-card` and `.dashboard-sections .btn-secondary` elements there are, whether
`.section-footer .btn-link` matches an element, and the names bound in the
global scope. -/
structure DashboardPage where
  activityItems : Nat
  statCards : Nat
  adoptBtns : Nat
  viewAllPetsLink : Bool
  globals : List String
  deriving DecidableEq, Repr

/-- The click listeners the start-up code has installed, and the exception it
threw, if any. -/
structure DashboardStart where
  activityListeners : Nat
  statListeners : Nat
  adoptListeners : Nat
  viewAllPetsListener : Bool
  thrown : Option String
  deriving DecidableEq, Repr

/-- The constants declared in the `DOMContentLoaded` callback, lines 7-38. -/
def dashboardLocals : List String :=
  ["activityItems", "statCards", "dashboardAdoptBtns", "viewAllPetsLink"]

/-- The `DOMContentLoaded` callback of `src/dashboard.js`, lines 2-46.  Line 40
names `viewAllPatsLink`: the name is looked up in the callback and in the global
scope; unbound, it throws a `ReferenceError`, and bound to something else the
listener goes to that object, not to the link. -/
def dashboardInit (p : DashboardPage) : DashboardStart :=
  let start : DashboardStart :=
    { activityListeners := p.activityItems, statListeners := p.statCards,
      adoptListeners := p.adoptBtns, viewAllPetsListener := false, thrown := none }
  if p.viewAllPetsLink then
    if dashboardLocals.contains "viewAllPatsLink" || p.globals.contains "viewAllPatsLink" then
      start
    else { start with thrown := some "ReferenceError: viewAllPatsLink is not defined" }
  else start

/-- A dashboard with the `View All Pets` link, loaded with the scripts of the
repository. -/
def dashboardWithLink : DashboardPage :=
  { activityItems := 3, statCards := 4, adoptBtns := 2, viewAllPetsLink := true,
    globals := ["initializeCharts", "showNotification", "showAdoptionModal", "validateForm",
      "initTheme", "updateThemeIcon", "loadComponent"] }

/-! ## Basic facts -/

@[simp] theorem ensureStyle_body (x : String) (s : Page) : (ensureStyle x s).body = s.body := by
  unfold ensureStyle
  split <;> rfl

@[simp] theorem ensureStyle_nextId (x : String) (s : Page) :
    (ensureStyle x s).nextId = s.nextId := by
  unfold ensureStyle
  split <;> rfl

@[simp] theorem ensureStyle_timers (x : String) (s : Page) :
    (ensureStyle x s).timers = s.timers := by
  unfold ensureStyle
  split <;> rfl

@[simp] theorem ensureStyle_now (x : String) (s : Page) : (ensureStyle x s).now = s.now := by
  unfold ensureStyle
  split <;> rfl

@[simp] theorem ensureStyle_notifImpl (x : String) (s : Page) :
    (ensureStyle x s).notifImpl = s.notifImpl := by
  unfold ensureStyle
  split <;> rfl

@[simp] theorem ensureStyle_chatMessages (x : String) (s : Page) :
    (ensureStyle x s).chatMessages = s.chatMessages := by
  unfold ensureStyle
  split <;> rfl

@[simp] theorem ensureStyle_chatInput (x : String) (s : Page) :
    (ensureStyle x s).chatInput = s.chatInput := by
  unfold ensureStyle
  split <;> rfl

@[simp] theorem ensureStyle_rand (x : String) (s : Page) : (ensureStyle x s).rand = s.rand := by
  unfold ensureStyle
  split <;> rfl

@[simp] theorem ensureStyle_drawn (x : String) (s : Page) : (ensureStyle x s).drawn = s.drawn := by
  unfold ensureStyle
  split <;> rfl

@[simp] theorem ensureStyle_chatItems (x : String) (s : Page) :
    (ensureStyle x s).chatItems = s.chatItems := by
  unfold ensureStyle
  split <;> rfl

@[simp] theorem ensureStyle_searchBox (x : String) (s : Page) :
    (ensureStyle x s).searchBox = s.searchBox := by
  unfold ensureStyle
  split <;> rfl

@[simp] theorem ensureStyle_petsGridOpacity (x : String) (s : Page) :
    (ensureStyle x s).petsGridOpacity = s.petsGridOpacity := by
  unfold ensureStyle
  split <;> rfl

theorem trimChars_of_blank (l : List Char) (h : ∀ c ∈ l, isJsWhitespace c = true) :
    trimChars l = [] := by
  have h1 : l.dropWhile isJsWhitespace = [] := List.dropWhile_eq_nil_iff.mpr h
  simp [trimChars, h1]

theorem jsTrim_of_blank (v : String) (h : isBlank v) : jsTrim v = "" := by
  unfold jsTrim
  rw [trimChars_of_blank v.data h]

/-! ## Chat: blank input -/

/-- C5: with an input that is empty or only white space, both `sendMessage`
functions leave the message list and the input value as they are and schedule
no timer. -/
theorem sendMessage_blank_unchanged (s : Page) (h : isBlank s.chatInput) :
    (sendMessage s).chatMessages = s.chatMessages ∧
    (sendMessage s).chatInput = s.chatInput ∧
    (sendMessage s).timers = s.timers ∧
    (initChat_sendMessage s).chatMessages = s.chatMessages ∧
    (initChat_sendMessage s).chatInput = s.chatInput ∧
    (initChat_sendMessage s).timers = s.timers := by
  have ht := jsTrim_of_blank s.chatInput h
  simp [sendMessage, initChat_sendMessage, ht]

theorem sendMessage_blank_unchanged_witness :
    isBlank blankInputPage.chatInput ∧
    (sendMessage blankInputPage).chatMessages = blankInputPage.chatMessages :=
  ⟨by decide, (sendMessage_blank_unchanged blankInputPage (by decide)).1⟩

/-- C6 fails as stated: on a page whose chat input holds three spaces,
`sendMessage` does not add one notification of type `error`. -/
theorem sendMessage_blank_error_notification_counterexample :
    isBlank blankInputPage.chatInput ∧
    ¬ (notificationsOfType "error" (sendMessage blankInputPage)).length =
        (notificationsOfType "error" blankInputPage).length + 1 := by
  refine ⟨by decide, ?_⟩
  have ht : jsTrim blankInputPage.chatInput = "" := jsTrim_of_blank _ (by decide)
  simp [sendMessage, ht]

/-- C6 as amended: with an input that is empty or only white space, both
`sendMessage` functions return silently; the elements of the document are
unchanged, so no notification of any type is produced. -/
theorem sendMessage_blank_no_notification (s : Page) (h : isBlank s.chatInput) :
    (sendMessage s).body = s.body ∧ (initChat_sendMessage s).body = s.body ∧
    ∀ type, notificationsOfType type (sendMessage s) = notificationsOfType type s := by
  have ht := jsTrim_of_blank s.chatInput h
  simp [sendMessage, initChat_sendMessage, ht]

theorem sendMessage_blank_no_notification_witness :
    isBlank blankInputPage.chatInput ∧ (sendMessage blankInputPage).body = blankInputPage.body :=
  ⟨by decide, (sendMessage_blank_no_notification blankInputPage (by decide)).1⟩

/-! ## Chat: sending and the simulated reply -/

theorem replyDelay_bounds (r : Draw) : 1000 ≤ replyDelay r ∧ replyDelay r < 3000 := by
  have h0 := r.nonneg
  have h1 := r.lt_one
  unfold replyDelay
  constructor <;> linarith

theorem toMillis_replyDelay_bounds (r : Draw) :
    1000 ≤ toMillis (replyDelay r) ∧ toMillis (replyDelay r) < 3000 := by
  have hb := replyDelay_bounds r
  have hfl : (1000 : ℤ) ≤ Int.floor (replyDelay r) := by
    apply Int.le_floor.mpr
    exact_mod_cast hb.1
  have hfu : Int.floor (replyDelay r) < (3000 : ℤ) := by
    apply Int.floor_lt.mpr
    exact_mod_cast hb.2
  unfold toMillis
  omega

theorem replyIndex_eq (r : Draw) : replyIndex r = (Int.floor (r.val * 5)).toNat := by
  simp [replyIndex, replies]

theorem replyIndex_lt (r : Draw) : replyIndex r < replies.length := by
  have h0 := r.nonneg
  have h1 := r.lt_one
  have hlen : replies.length = 5 := rfl
  have hfl : (0 : ℤ) ≤ Int.floor (r.val * 5) := by
    apply Int.le_floor.mpr
    push_cast
    linarith
  have hfu : Int.floor (r.val * 5) < (5 : ℤ) := by
    apply Int.floor_lt.mpr
    push_cast
    linarith
  rw [replyIndex_eq, hlen]
  omega

/-- C9: for every draw, `simulateReply` appends one `message received` element
at the end of the message list; the index `floor(r * 5)` is below 5, so the text
is a line of the reply pool and never `undefined`. -/
theorem simulateReply_appends_pool_line (s : Page) :
    replyIndex (s.rand s.drawn) < 5 ∧
    ∃ text, text ∈ replies ∧ replies.get? (replyIndex (s.rand s.drawn)) = some text ∧
      (simulateReply s).chatMessages =
        s.chatMessages ++ [{ className := "message received", text := text, time := s.now }] := by
  have hlt := replyIndex_lt (s.rand s.drawn)
  have hg : replies[replyIndex (s.rand s.drawn)]? = some (replies[replyIndex (s.rand s.drawn)]) :=
    List.getElem?_eq_getElem hlt
  refine ⟨hlt, replies[replyIndex (s.rand s.drawn)], List.getElem_mem _, ?_, ?_⟩
  · simp [hg]
  · simp [simulateReply, random, hg]

/-! ## Adoption modal: opening twice -/

/-- C10 fails as stated: on a fresh page, two calls of `showAdoptionModal` for
the same pet leave two overlays in the document, not one. -/
theorem showAdoptionModal_twice_counterexample :
    ¬ (modalOverlays
        (showAdoptionModal "Max"
          (showAdoptionModal "Max" (freshPage NotifImpl.dashboard drawZero)))).length = 1 := by
  decide

/-- C10 as amended: `showAdoptionModal` has no guard, every call appends its own
overlay; two calls in succession append two overlays, with consecutive ids, after
the elements already in the document. -/
theorem showAdoptionModal_twice_appends_two (s : Page) (petName : String) :
    (showAdoptionModal petName (showAdoptionModal petName s)).body =
      s.body ++ [adoptionOverlay s.nextId petName, adoptionOverlay (s.nextId + 1) petName] ∧
    (modalOverlays (showAdoptionModal petName (showAdoptionModal petName s))).length =
      (modalOverlays s).length + 2 := by
  constructor
  · simp [showAdoptionModal, appendChild]
  · simp [modalOverlays, showAdoptionModal, appendChild, List.filter_append, adoptionOverlay]

/-! ## Notifications: frame -/

theorem showNotification_body (message type : String) (s : Page) :
    (showNotification message type s).body = s.body ++ [newNotification message type s] := by
  unfold showNotification newNotification
  cases h : s.notifImpl <;>
    simp [showNotificationDashboard, showNotificationSite, appendChild, setTimeout]

theorem showNotification_timers (message type : String) (s : Page) :
    (showNotification message type s).timers =
      s.timers ++ [{ due := s.now + 5000, action := Action.autoRemove s.nextId }] := by
  unfold showNotification
  cases h : s.notifImpl <;>
    simp [showNotificationDashboard, showNotificationSite, appendChild, setTimeout]

theorem Grows.grows_refl (s : Page) : Grows s s :=
  ⟨le_refl _, rfl, fun e he => Or.inl ⟨e, he, rfl, rfl⟩⟩

theorem Grows.grows_trans {s₁ s₂ s₃ : Page} (h₁ : Grows s₁ s₂) (h₂ : Grows s₂ s₃) : Grows s₁ s₃ := by
  refine ⟨le_trans h₁.1 h₂.1, h₂.2.1.trans h₁.2.1, ?_⟩
  intro e he
  rcases h₂.2.2 e he with ⟨e₂, he₂, hid, hk⟩ | hfresh
  · rcases h₁.2.2 e₂ he₂ with ⟨e₁, he₁, hid₁, hk₁⟩ | hfresh₁
    · exact Or.inl ⟨e₁, he₁, hid₁.trans hid, hk₁.trans hk⟩
    · exact Or.inr ⟨hid ▸ hfresh₁.1, lt_of_lt_of_le (hid ▸ hfresh₁.2) h₂.1⟩
  · exact Or.inr ⟨le_trans h₁.1 hfresh.1, hfresh.2⟩

theorem Keeps.keeps_refl (s : Page) : Keeps s s := ⟨rfl, fun _ ht => ht⟩

theorem Keeps.keeps_trans {s₁ s₂ s₃ : Page} (h₁ : Keeps s₁ s₂) (h₂ : Keeps s₂ s₃) : Keeps s₁ s₃ :=
  ⟨h₂.1.trans h₁.1, fun t ht => h₂.2 t (h₁.2 t ht)⟩

/-- A page that differs from `s` in neither ids, loaded script nor document. -/
theorem Grows.grows_of_eq {s s' : Page} (hn : s'.nextId = s.nextId) (hi : s'.notifImpl = s.notifImpl)
    (hb : s'.body = s.body) : Grows s s' :=
  ⟨hn ▸ le_refl _, hi, fun e he => Or.inl ⟨e, hb ▸ he, rfl, rfl⟩⟩

theorem grows_setTimeout (d : Nat) (a : Action) (s : Page) : Grows s (setTimeout d a s) :=
  Grows.grows_of_eq rfl rfl rfl

theorem keeps_setTimeout (d : Nat) (a : Action) (s : Page) : Keeps s (setTimeout d a s) :=
  ⟨rfl, fun _ ht => List.mem_append_left _ ht⟩

theorem grows_removeElement (n : Nat) (s : Page) : Grows s (removeElement n s) :=
  ⟨le_refl _, rfl, fun e he => Or.inl ⟨e, (List.mem_filter.mp he).1, rfl, rfl⟩⟩

theorem grows_map (f : Element → Element) (hid : ∀ e, (f e).id = e.id)
    (hk : ∀ e, (f e).kind = e.kind) (s : Page) : Grows s { s with body := s.body.map f } := by
  refine ⟨le_refl _, rfl, ?_⟩
  intro e he
  rcases List.mem_map.mp he with ⟨e₀, he₀, rfl⟩
  exact Or.inl ⟨e₀, he₀, (hid e₀).symm, (hk e₀).symm⟩

theorem grows_setAnimation (n : Nat) (a : String) (s : Page) : Grows s (setAnimation n a s) := by
  apply grows_map
  · intro e
    split <;> rfl
  · intro e
    split <;> rfl

theorem grows_setContentAnimation (n : Nat) (a : String) (s : Page) :
    Grows s (setContentAnimation n a s) := by
  apply grows_map
  · intro e
    split <;> rfl
  · intro e
    split <;> rfl

theorem grows_ensureStyle (x : String) (s : Page) : Grows s (ensureStyle x s) :=
  Grows.grows_of_eq (by simp) (by simp) (by simp)

theorem keeps_ensureStyle (x : String) (s : Page) : Keeps s (ensureStyle x s) :=
  ⟨by simp, fun _ ht => by simpa using ht⟩

/-- Appending an element that takes the next id. -/
theorem grows_create (e : Element) (s : Page) (he : e.id = s.nextId) :
    Grows s (appendChild e { s with nextId := s.nextId + 1 }) := by
  refine ⟨Nat.le_succ _, rfl, ?_⟩
  intro x hx
  rcases List.mem_append.mp hx with h | h
  · exact Or.inl ⟨x, h, rfl, rfl⟩
  · rw [List.mem_singleton] at h
    exact Or.inr ⟨by rw [h, he], by rw [h, he]; exact Nat.lt_succ_self _⟩

theorem grows_showNotification (message type : String) (s : Page) :
    Grows s (showNotification message type s) := by
  unfold showNotification
  cases h : s.notifImpl
  · exact (grows_create (dashboardNotification s.nextId message type) s rfl).grows_trans
      (grows_setTimeout _ _ _)
  · show Grows s (showNotificationSite message type s)
    refine ⟨?_, ?_, ?_⟩
    · simp [showNotificationSite, setTimeout, appendChild]
    · simp [showNotificationSite, setTimeout, appendChild]
    · intro x hx
      simp only [showNotificationSite, setTimeout, appendChild, ensureStyle_body] at hx
      rcases List.mem_append.mp hx with h | h
      · exact Or.inl ⟨x, h, rfl, rfl⟩
      · rw [List.mem_singleton] at h
        refine Or.inr ⟨by rw [h]; exact le_refl _, ?_⟩
        rw [h]
        simp [showNotificationSite, setTimeout, appendChild, siteNotification]

theorem keeps_showNotification (message type : String) (s : Page) :
    Keeps s (showNotification message type s) := by
  refine ⟨?_, ?_⟩
  · unfold showNotification
    cases s.notifImpl <;>
      simp [showNotificationDashboard, showNotificationSite, setTimeout, appendChild]
  · intro t ht
    rw [showNotification_timers]
    exact List.mem_append_left _ ht

theorem keeps_of_timers_eq {s s' : Page} (hn : s'.now = s.now) (ht : s'.timers = s.timers) :
    Keeps s s' :=
  ⟨hn, fun _ h => ht ▸ h⟩

theorem grows_autoRemove (n : Nat) (s : Page) : Grows s (autoRemove n s) := by
  unfold autoRemove
  split
  · exact (grows_setAnimation _ _ _).grows_trans (grows_setTimeout _ _ _)
  · exact Grows.grows_refl s

theorem keeps_autoRemove (n : Nat) (s : Page) : Keeps s (autoRemove n s) := by
  unfold autoRemove
  split
  · exact (keeps_of_timers_eq rfl rfl).keeps_trans (keeps_setTimeout _ _ (setAnimation n _ s))
  · exact Keeps.keeps_refl s

theorem grows_closeHandler (n : Nat) (s : Page) : Grows s (closeHandler n s) := by
  unfold closeHandler
  cases s.notifImpl
  · exact (grows_setAnimation _ _ _).grows_trans (grows_setTimeout _ _ _)
  · exact grows_removeElement n s

theorem keeps_closeHandler (n : Nat) (s : Page) : Keeps s (closeHandler n s) := by
  unfold closeHandler
  cases s.notifImpl
  · exact (keeps_of_timers_eq rfl rfl).keeps_trans (keeps_setTimeout _ _ (setAnimation n _ s))
  · exact keeps_of_timers_eq rfl rfl

theorem grows_closeModal (n : Nat) (s : Page) : Grows s (closeModal n s) :=
  ((grows_setAnimation _ _ _).grows_trans (grows_setContentAnimation _ _ _)).grows_trans
    (grows_setTimeout _ _ _)

theorem keeps_closeModal (n : Nat) (s : Page) : Keeps s (closeModal n s) :=
  (keeps_of_timers_eq rfl rfl).keeps_trans
    (keeps_setTimeout _ _ (setContentAnimation n _ (setAnimation n _ s)))

theorem grows_confirmHandler (n : Nat) (petName : String) (s : Page) :
    Grows s (confirmHandler n petName s) :=
  ((grows_showNotification _ _ _).grows_trans (grows_closeModal _ _)).grows_trans (grows_setTimeout _ _ _)

theorem keeps_confirmHandler (n : Nat) (petName : String) (s : Page) :
    Keeps s (confirmHandler n petName s) :=
  ((keeps_showNotification _ _ _).keeps_trans (keeps_closeModal _ _)).keeps_trans (keeps_setTimeout _ _ _)

theorem grows_showAdoptionModal (petName : String) (s : Page) :
    Grows s (showAdoptionModal petName s) :=
  (grows_create (adoptionOverlay s.nextId petName) s rfl).grows_trans (grows_ensureStyle _ _)

theorem keeps_showAdoptionModal (petName : String) (s : Page) :
    Keeps s (showAdoptionModal petName s) :=
  (keeps_of_timers_eq rfl rfl).keeps_trans
    (keeps_ensureStyle _ (appendChild (adoptionOverlay s.nextId petName)
      { s with nextId := s.nextId + 1 }))

theorem grows_simulateReply (s : Page) : Grows s (simulateReply s) :=
  Grows.grows_of_eq rfl rfl rfl

theorem keeps_simulateReply (s : Page) : Keeps s (simulateReply s) :=
  keeps_of_timers_eq rfl rfl

theorem sendMessage_of_trim_empty (s : Page) (h : jsTrim s.chatInput = "") :
    sendMessage s = s := by
  simp [sendMessage, h]

theorem sendMessage_of_trim_nonempty (s : Page) (h : jsTrim s.chatInput ≠ "") :
    sendMessage s =
      setTimeout (toMillis (replyDelay (s.rand s.drawn))) Action.simulateReply
        { s with
          chatMessages := s.chatMessages ++
            [{ className := "message sent", text := jsTrim s.chatInput, time := s.now }]
          chatInput := ""
          drawn := s.drawn + 1 } := by
  simp [sendMessage, h, random]

theorem initChat_sendMessage_of_trim_empty (s : Page) (h : jsTrim s.chatInput = "") :
    initChat_sendMessage s = s := by
  simp [initChat_sendMessage, h]

theorem initChat_sendMessage_of_trim_nonempty (s : Page) (h : jsTrim s.chatInput ≠ "") :
    initChat_sendMessage s =
      { s with
        chatMessages := s.chatMessages ++
          [{ className := "message sent", text := jsTrim s.chatInput, time := s.now }]
        chatInput := "" } := by
  simp [initChat_sendMessage, h]

theorem grows_sendMessage (s : Page) : Grows s (sendMessage s) := by
  by_cases h : jsTrim s.chatInput = ""
  · rw [sendMessage_of_trim_empty s h]
    exact Grows.grows_refl s
  · rw [sendMessage_of_trim_nonempty s h]
    exact Grows.grows_of_eq rfl rfl rfl

theorem keeps_sendMessage (s : Page) : Keeps s (sendMessage s) := by
  by_cases h : jsTrim s.chatInput = ""
  · rw [sendMessage_of_trim_empty s h]
    exact Keeps.keeps_refl s
  · rw [sendMessage_of_trim_nonempty s h]
    exact ⟨rfl, fun _ ht => List.mem_append_left _ ht⟩

theorem grows_initChat_sendMessage (s : Page) : Grows s (initChat_sendMessage s) := by
  by_cases h : jsTrim s.chatInput = ""
  · rw [initChat_sendMessage_of_trim_empty s h]
    exact Grows.grows_refl s
  · rw [initChat_sendMessage_of_trim_nonempty s h]
    exact Grows.grows_of_eq rfl rfl rfl

theorem keeps_initChat_sendMessage (s : Page) : Keeps s (initChat_sendMessage s) := by
  by_cases h : jsTrim s.chatInput = ""
  · rw [initChat_sendMessage_of_trim_empty s h]
    exact Keeps.keeps_refl s
  · rw [initChat_sendMessage_of_trim_nonempty s h]
    exact keeps_of_timers_eq rfl rfl

theorem idleCheckBody_same (t : Nat) (s : Page) : idleCheckBody t t s = s := by
  simp [idleCheckBody]

/-- One firing of the idle check changes nothing: both clock reads give the
clock of the page, so the elapsed time is zero. -/
theorem idleCheck_eq (s : Page) : idleCheck s = s := by
  unfold idleCheck
  split
  · rfl
  · split
    · exact idleCheckBody_same s.now s
    · rfl

theorem grows_with_same (s s' : Page) (hn : s'.nextId = s.nextId)
    (hi : s'.notifImpl = s.notifImpl) (hb : s'.body = s.body) (message type : String) :
    Grows s (showNotification message type s') :=
  (Grows.grows_of_eq hn hi hb).grows_trans (grows_showNotification message type s')

theorem keeps_with_same (s s' : Page) (hn : s'.now = s.now) (ht : s'.timers = s.timers)
    (message type : String) : Keeps s (showNotification message type s') :=
  (keeps_of_timers_eq hn ht).keeps_trans (keeps_showNotification message type s')

theorem chatItemClick_of_none (i : Nat) (s : Page) (h : s.chatItems.get? i = none) :
    chatItemClick i s = s := by
  unfold chatItemClick
  rw [h]

theorem chatItemClick_of_some (i : Nat) (s : Page) (item : ChatItem)
    (h : s.chatItems.get? i = some item) :
    chatItemClick i s =
      showNotification ("Loading conversation with " ++ item.userName) "info"
        { s with chatItems := activate i s.chatItems } := by
  unfold chatItemClick
  rw [h]

theorem conversationClick_of_none (i : Nat) (s : Page) (h : s.chatItems.get? i = none) :
    conversationClick i s = s := by
  unfold conversationClick
  rw [h]

theorem conversationClick_of_some (i : Nat) (s : Page) (item : ChatItem)
    (h : s.chatItems.get? i = some item) :
    conversationClick i s =
      loadConversation item.dataChat { s with chatItems := activate i s.chatItems } := by
  unfold conversationClick
  rw [h]

theorem grows_chatItemClick (i : Nat) (s : Page) : Grows s (chatItemClick i s) := by
  cases h : s.chatItems.get? i with
  | none =>
    rw [chatItemClick_of_none i s h]
    exact Grows.grows_refl s
  | some item =>
    rw [chatItemClick_of_some i s item h]
    exact grows_with_same s { s with chatItems := activate i s.chatItems } rfl rfl rfl _ _

theorem keeps_chatItemClick (i : Nat) (s : Page) : Keeps s (chatItemClick i s) := by
  cases h : s.chatItems.get? i with
  | none =>
    rw [chatItemClick_of_none i s h]
    exact Keeps.keeps_refl s
  | some item =>
    rw [chatItemClick_of_some i s item h]
    exact keeps_with_same s { s with chatItems := activate i s.chatItems } rfl rfl _ _

theorem grows_loadConversation (chatId : String) (s : Page) :
    Grows s (loadConversation chatId s) :=
  Grows.grows_of_eq rfl rfl rfl

theorem keeps_loadConversation (chatId : String) (s : Page) :
    Keeps s (loadConversation chatId s) :=
  ⟨rfl, fun _ ht => List.mem_append_left _ ht⟩

theorem grows_conversationClick (i : Nat) (s : Page) : Grows s (conversationClick i s) := by
  cases h : s.chatItems.get? i with
  | none =>
    rw [conversationClick_of_none i s h]
    exact Grows.grows_refl s
  | some item =>
    rw [conversationClick_of_some i s item h]
    exact Grows.grows_of_eq rfl rfl rfl

theorem keeps_conversationClick (i : Nat) (s : Page) : Keeps s (conversationClick i s) := by
  cases h : s.chatItems.get? i with
  | none =>
    rw [conversationClick_of_none i s h]
    exact Keeps.keeps_refl s
  | some item =>
    rw [conversationClick_of_some i s item h]
    exact ⟨rfl, fun _ ht => List.mem_append_left _ ht⟩

theorem searchDone_eq (searchTerm : String) (s : Page) :
    searchDone searchTerm s =
      showNotification ("Found results for \"" ++ searchTerm ++ "\"") "success"
        { s with petsGridOpacity := "1" } := rfl

theorem grows_searchDone (searchTerm : String) (s : Page) :
    Grows s (searchDone searchTerm s) := by
  rw [searchDone_eq]
  exact grows_with_same s { s with petsGridOpacity := "1" } rfl rfl rfl _ _

theorem keeps_searchDone (searchTerm : String) (s : Page) :
    Keeps s (searchDone searchTerm s) := by
  rw [searchDone_eq]
  exact keeps_with_same s { s with petsGridOpacity := "1" } rfl rfl _ _

theorem performSearch_of_blank (s : Page) (h : jsTrim s.searchBox = "") :
    performSearch s = showNotification "Please enter a search term" "error" s := by
  simp [performSearch, h]

theorem performSearch_of_nonblank (s : Page) (h : jsTrim s.searchBox ≠ "") :
    performSearch s =
      setTimeout 800 (Action.searchDone s.searchBox) { s with petsGridOpacity := "0.5" } := by
  simp [performSearch, h]

theorem grows_performSearch (s : Page) : Grows s (performSearch s) := by
  by_cases h : jsTrim s.searchBox = ""
  · rw [performSearch_of_blank s h]
    exact grows_showNotification _ _ s
  · rw [performSearch_of_nonblank s h]
    exact Grows.grows_of_eq rfl rfl rfl

theorem keeps_performSearch (s : Page) : Keeps s (performSearch s) := by
  by_cases h : jsTrim s.searchBox = ""
  · rw [performSearch_of_blank s h]
    exact keeps_showNotification _ _ s
  · rw [performSearch_of_nonblank s h]
    exact ⟨rfl, fun _ ht => List.mem_append_left _ ht⟩

theorem fire_idleCheck (s : Page) :
    fire Action.idleCheck s = setTimeout 30000 Action.idleCheck s := by
  show setTimeout 30000 Action.idleCheck (idleCheck s) = _
  rw [idleCheck_eq]

theorem grows_fire (a : Action) (s : Page) : Grows s (fire a s) := by
  cases a with
  | autoRemove n => exact grows_autoRemove n s
  | removeElement n => exact grows_removeElement n s
  | simulateReply => exact grows_simulateReply s
  | notifyChat petName => exact grows_showNotification _ _ s
  | idleCheck =>
    rw [fire_idleCheck]
    exact grows_setTimeout _ _ s
  | conversationLoaded => exact Grows.grows_of_eq rfl rfl rfl
  | searchDone searchTerm => exact grows_searchDone searchTerm s

theorem keeps_fire (a : Action) (s : Page) : Keeps s (fire a s) := by
  cases a with
  | autoRemove n => exact keeps_autoRemove n s
  | removeElement n => exact keeps_of_timers_eq rfl rfl
  | simulateReply => exact keeps_simulateReply s
  | notifyChat petName => exact keeps_showNotification _ _ s
  | idleCheck =>
    rw [fire_idleCheck]
    exact keeps_setTimeout _ _ s
  | conversationLoaded => exact keeps_of_timers_eq rfl rfl
  | searchDone searchTerm => exact keeps_searchDone searchTerm s

theorem fireAll_nil (s : Page) : fireAll [] s = s := rfl

theorem fireAll_cons (t : Timer) (l : List Timer) (s : Page) :
    fireAll (t :: l) s = fireAll l (fire t.action s) := rfl

theorem fireAll_append (l₁ l₂ : List Timer) (s : Page) :
    fireAll (l₁ ++ l₂) s = fireAll l₂ (fireAll l₁ s) := by
  simp [fireAll, List.foldl_append]

theorem grows_fireAll (l : List Timer) (s : Page) : Grows s (fireAll l s) := by
  induction l generalizing s with
  | nil => exact Grows.grows_refl s
  | cons t l ih => exact (grows_fire t.action s).grows_trans (ih _)

theorem keeps_fireAll (l : List Timer) (s : Page) : Keeps s (fireAll l s) := by
  induction l generalizing s with
  | nil => exact Keeps.keeps_refl s
  | cons t l ih => exact (keeps_fire t.action s).keeps_trans (ih _)

theorem tick_eq (s : Page) : tick s = fireAll (dueTimers s) (tickStart s) := rfl

theorem grows_tick (s : Page) : Grows s (tick s) := by
  rw [tick_eq]
  have h0 : Grows s (tickStart s) := Grows.grows_of_eq rfl rfl rfl
  exact h0.grows_trans (grows_fireAll _ _)

theorem tick_now (s : Page) : (tick s).now = s.now + 1 := by
  rw [tick_eq]
  exact (keeps_fireAll _ _).1

/-- A timer that is not yet due stays in the queue during a tick. -/
theorem tick_keeps_timer (s : Page) (t : Timer) (ht : t ∈ s.timers) (hd : s.now + 1 < t.due) :
    t ∈ (tick s).timers := by
  rw [tick_eq]
  apply (keeps_fireAll _ _).2
  unfold tickStart
  simp only [List.mem_filter]
  refine ⟨ht, ?_⟩
  simp
  omega

theorem grows_step (ev : Event) (s : Page) : Grows s (step ev s) := by
  cases ev with
  | tick => exact grows_tick s
  | callShowNotification message type => exact grows_showNotification _ _ s
  | clickNotificationClose n =>
    simp only [step]
    split
    · exact grows_closeHandler n s
    · exact Grows.grows_refl s
  | typeChatInput value => exact Grows.grows_of_eq rfl rfl rfl
  | clickSend => exact grows_sendMessage s
  | clickSendButton => exact grows_initChat_sendMessage s
  | callShowAdoptionModal petName => exact grows_showAdoptionModal _ s
  | clickModalClose n =>
    simp only [step]
    split
    · exact grows_closeModal n s
    · exact Grows.grows_refl s
  | clickConfirmAdoption n =>
    simp only [step]
    split
    · exact grows_confirmHandler n _ s
    · exact Grows.grows_refl s
  | clickChatItem i => exact grows_chatItemClick i s
  | clickConversation i => exact grows_conversationClick i s
  | typeSearch value => exact Grows.grows_of_eq rfl rfl rfl
  | clickSearch => exact grows_performSearch s

/-- Every event other than a tick leaves the clock and the pending timers. -/
theorem keeps_step (ev : Event) (s : Page) (hev : ev ≠ Event.tick) : Keeps s (step ev s) := by
  cases ev with
  | tick => exact absurd rfl hev
  | callShowNotification message type => exact keeps_showNotification _ _ s
  | clickNotificationClose n =>
    simp only [step]
    split
    · exact keeps_closeHandler n s
    · exact Keeps.keeps_refl s
  | typeChatInput value => exact keeps_of_timers_eq rfl rfl
  | clickSend => exact keeps_sendMessage s
  | clickSendButton => exact keeps_initChat_sendMessage s
  | callShowAdoptionModal petName => exact keeps_showAdoptionModal _ s
  | clickModalClose n =>
    simp only [step]
    split
    · exact keeps_closeModal n s
    · exact Keeps.keeps_refl s
  | clickConfirmAdoption n =>
    simp only [step]
    split
    · exact keeps_confirmHandler n _ s
    · exact Keeps.keeps_refl s
  | clickChatItem i => exact keeps_chatItemClick i s
  | clickConversation i => exact keeps_conversationClick i s
  | typeSearch value => exact keeps_of_timers_eq rfl rfl
  | clickSearch => exact keeps_performSearch s

theorem run_nil (s : Page) : run [] s = s := rfl

theorem run_cons (ev : Event) (evs : List Event) (s : Page) :
    run (ev :: evs) s = run evs (step ev s) := rfl

theorem run_append (l₁ l₂ : List Event) (s : Page) : run (l₁ ++ l₂) s = run l₂ (run l₁ s) := by
  simp [run, List.foldl_append]

theorem grows_run (evs : List Event) (s : Page) : Grows s (run evs s) := by
  induction evs generalizing s with
  | nil => exact Grows.grows_refl s
  | cons ev evs ih => exact (grows_step ev s).grows_trans (ih _)

/-! ## Removal is final -/

theorem isAttached_eq_false_iff (n : Nat) (s : Page) :
    isAttached n s = false ↔ ∀ e ∈ s.body, e.id ≠ n := by
  simp [isAttached]

theorem isAttached_eq_true_iff (n : Nat) (s : Page) :
    isAttached n s = true ↔ ∃ e ∈ s.body, e.id = n := by
  simp [isAttached]

/-- An element that left the document is not in any later document: new
elements take ids that were never used. -/
theorem detached_of_grows {s s' : Page} (n : Nat) (hg : Grows s s') (hn : n < s.nextId)
    (hd : isAttached n s = false) : isAttached n s' = false := by
  rw [isAttached_eq_false_iff] at hd ⊢
  intro e he heq
  rcases hg.2.2 e he with ⟨e₀, he₀, hid, _⟩ | hfresh
  · exact hd e₀ he₀ (hid.trans heq)
  · omega

theorem isAttached_removeElement (n : Nat) (s : Page) :
    isAttached n (removeElement n s) = false := by
  rw [isAttached_eq_false_iff]
  intro e he
  have h := (List.mem_filter.mp he).2
  simpa using h

/-- A removal callback among the callbacks that run leaves its element out of
the document. -/
theorem fireAll_removes (n : Nat) (l : List Timer) (s : Page) (d : Nat)
    (hmem : ({ due := d, action := Action.removeElement n } : Timer) ∈ l)
    (hn : n < s.nextId) : isAttached n (fireAll l s) = false := by
  induction l generalizing s with
  | nil => cases hmem
  | cons t l ih =>
    rw [fireAll_cons]
    rcases List.mem_cons.mp hmem with h | h
    · have hdet : isAttached n (fire t.action s) = false := by
        rw [← h]
        exact isAttached_removeElement n s
      have hg := grows_fire t.action s
      exact detached_of_grows n (grows_fireAll l _) (lt_of_lt_of_le hn hg.1) hdet
    · exact ih _ h (lt_of_lt_of_le hn (grows_fire t.action s).1)

theorem elapsed_nil : elapsed [] = 0 := rfl

theorem elapsed_tick (evs : List Event) : elapsed (Event.tick :: evs) = elapsed evs + 1 := by
  simp [elapsed]

theorem elapsed_cons_of_ne (ev : Event) (evs : List Event) (h : ev ≠ Event.tick) :
    elapsed (ev :: evs) = elapsed evs := by
  simp [elapsed, List.count_cons, h]

theorem detached_run (n : Nat) (evs : List Event) (s : Page) (hn : n < s.nextId)
    (hd : isAttached n s = false) : isAttached n (run evs s) = false :=
  detached_of_grows n (grows_run evs s) hn hd

/-- A pending removal callback takes its element out of the document by the
time it is due, whatever else happens meanwhile. -/
theorem pending_removal_fires (n d : Nat) (evs : List Event) (s : Page)
    (hmem : ({ due := d, action := Action.removeElement n } : Timer) ∈ s.timers)
    (hn : n < s.nextId) (hnow : s.now < d) (hel : d ≤ s.now + elapsed evs) :
    isAttached n (run evs s) = false := by
  induction evs generalizing s with
  | nil =>
    rw [elapsed_nil] at hel
    omega
  | cons ev evs ih =>
    rw [run_cons]
    by_cases hev : ev = Event.tick
    · subst hev
      rw [elapsed_tick] at hel
      have hn' : n < (step Event.tick s).nextId := lt_of_lt_of_le hn (grows_step _ s).1
      by_cases hdue : d = s.now + 1
      · apply detached_run n evs _ hn'
        show isAttached n (tick s) = false
        rw [tick_eq]
        apply fireAll_removes n _ (tickStart s) d _ hn
        unfold dueTimers
        rw [List.mem_filter]
        exact ⟨hmem, by simp [hdue]⟩
      · apply ih _ _ hn'
        · show (tick s).now < d
          rw [tick_now]
          omega
        · show d ≤ (tick s).now + elapsed evs
          rw [tick_now]
          omega
        · exact tick_keeps_timer s _ hmem (by show s.now + 1 < d; omega)
    · rw [elapsed_cons_of_ne ev evs hev] at hel
      have hk := keeps_step ev s hev
      apply ih _ (hk.2 _ hmem) (lt_of_lt_of_le hn (grows_step ev s).1)
      · rw [hk.1]
        exact hnow
      · rw [hk.1]
        exact hel

theorem showNotification_nextId (message type : String) (s : Page) :
    (showNotification message type s).nextId = s.nextId + 1 := by
  unfold showNotification
  cases s.notifImpl <;>
    simp [showNotificationDashboard, showNotificationSite, appendChild, setTimeout]

theorem showNotification_now (message type : String) (s : Page) :
    (showNotification message type s).now = s.now :=
  (keeps_showNotification message type s).1

theorem newNotification_id (message type : String) (s : Page) :
    (newNotification message type s).id = s.nextId := by
  unfold newNotification
  cases s.notifImpl <;> rfl

theorem newNotification_kind (message type : String) (s : Page) :
    (newNotification message type s).kind = ElemKind.notification := by
  unfold newNotification
  cases s.notifImpl <;> rfl

theorem freshPage_wellFormed (impl : NotifImpl) (r : Draw) : WellFormed (freshPage impl r) := by
  constructor <;> intro x hx <;> cases hx

theorem elapsed_replicate (k : Nat) : elapsed (List.replicate k Event.tick) = k := by
  unfold elapsed
  exact List.count_replicate_self _ _

theorem Frame.frame_refl (n : Nat) (s : Page) : Frame n s s := ⟨rfl, rfl⟩

theorem Frame.frame_trans {n : Nat} {s₁ s₂ s₃ : Page} (h₁ : Frame n s₁ s₂) (h₂ : Frame n s₂ s₃) :
    Frame n s₁ s₃ :=
  ⟨h₂.1.trans h₁.1, h₂.2.trans h₁.2⟩

theorem Frame.frame_of_eq {n : Nat} {s s' : Page} (hb : s'.body = s.body) (ht : s'.timers = s.timers) :
    Frame n s s' := by
  constructor
  · unfold isAttached
    rw [hb]
  · unfold timersFor
    rw [ht]

theorem timersFor_setTimeout (n d : Nat) (a : Action) (s : Page) :
    timersFor n (setTimeout d a s) =
      timersFor n s ++ (if a.target = some n then [{ due := s.now + d, action := a }] else []) := by
  unfold timersFor setTimeout
  simp only [List.filter_append]
  by_cases h : a.target = some n
  · simp [targets, h]
  · simp [targets, h]

theorem frame_setTimeout (n d : Nat) (a : Action) (s : Page) (h : a.target ≠ some n) :
    Frame n s (setTimeout d a s) := by
  refine ⟨rfl, ?_⟩
  rw [timersFor_setTimeout]
  simp [h]

theorem isAttached_map (n : Nat) (f : Element → Element) (hid : ∀ e, (f e).id = e.id)
    (s : Page) : isAttached n { s with body := s.body.map f } = isAttached n s := by
  unfold isAttached
  simp only [List.any_map]
  congr 1
  funext e
  simp [hid e]

theorem frame_setAnimation (n m : Nat) (a : String) (s : Page) :
    Frame n s (setAnimation m a s) := by
  refine ⟨?_, rfl⟩
  apply isAttached_map
  intro e
  split <;> rfl

theorem frame_setContentAnimation (n m : Nat) (a : String) (s : Page) :
    Frame n s (setContentAnimation m a s) := by
  refine ⟨?_, rfl⟩
  apply isAttached_map
  intro e
  split <;> rfl

theorem frame_removeElement (n m : Nat) (s : Page) (h : m ≠ n) :
    Frame n s (removeElement m s) := by
  refine ⟨?_, rfl⟩
  unfold isAttached removeElement
  rw [Bool.eq_iff_iff]
  simp only [List.any_eq_true, List.mem_filter]
  constructor
  · rintro ⟨e, ⟨he, _⟩, hid⟩
    exact ⟨e, he, hid⟩
  · rintro ⟨e, he, hid⟩
    refine ⟨e, ⟨he, ?_⟩, hid⟩
    have heq : e.id = n := by simpa using hid
    simp [heq]
    exact fun h' => h h'.symm

theorem frame_ensureStyle (n : Nat) (x : String) (s : Page) : Frame n s (ensureStyle x s) :=
  Frame.frame_of_eq (by simp) (by simp)

theorem isAttached_append_ne (n : Nat) (e : Element) (s : Page) (h : e.id ≠ n) :
    isAttached n { s with body := s.body ++ [e] } = isAttached n s := by
  unfold isAttached
  simp [h]

theorem frame_showNotification (n : Nat) (message type : String) (s : Page)
    (hn : n < s.nextId) : Frame n s (showNotification message type s) := by
  constructor
  · unfold isAttached
    rw [showNotification_body]
    have h : (newNotification message type s).id ≠ n := by
      rw [newNotification_id]
      omega
    simp [h]
  · unfold timersFor
    rw [showNotification_timers, List.filter_append]
    have h : s.nextId ≠ n := by omega
    simp [targets, Action.target, h]

theorem frame_showAdoptionModal (n : Nat) (petName : String) (s : Page) (hn : n < s.nextId) :
    Frame n s (showAdoptionModal petName s) := by
  have h : (adoptionOverlay s.nextId petName).id ≠ n := by
    show s.nextId ≠ n
    omega
  have h1 : Frame n s (appendChild (adoptionOverlay s.nextId petName)
      { s with nextId := s.nextId + 1 }) :=
    ⟨isAttached_append_ne n _ _ h, rfl⟩
  exact h1.frame_trans (frame_ensureStyle _ _ _)

theorem frame_autoRemove (n m : Nat) (s : Page) (h : m ≠ n) : Frame n s (autoRemove m s) := by
  unfold autoRemove
  split
  · exact (frame_setAnimation n m _ s).frame_trans
      (frame_setTimeout n _ _ _ (by simp [Action.target, h]))
  · exact Frame.frame_refl n s

theorem frame_closeHandler (n m : Nat) (s : Page) (h : m ≠ n) : Frame n s (closeHandler m s) := by
  unfold closeHandler
  cases s.notifImpl
  · exact (frame_setAnimation n m _ s).frame_trans
      (frame_setTimeout n _ _ _ (by simp [Action.target, h]))
  · exact frame_removeElement n m s h

theorem frame_closeModal (n m : Nat) (s : Page) (h : m ≠ n) : Frame n s (closeModal m s) :=
  ((frame_setAnimation n m _ s).frame_trans (frame_setContentAnimation n m _ _)).frame_trans
    (frame_setTimeout n _ _ _ (by simp [Action.target, h]))

theorem frame_confirmHandler (n m : Nat) (petName : String) (s : Page) (h : m ≠ n)
    (hn : n < s.nextId) : Frame n s (confirmHandler m petName s) :=
  ((frame_showNotification n _ _ s hn).frame_trans (frame_closeModal n m _ h)).frame_trans
    (frame_setTimeout n _ _ _ (by simp [Action.target]))

theorem frame_simulateReply (n : Nat) (s : Page) : Frame n s (simulateReply s) :=
  Frame.frame_of_eq rfl rfl

theorem frame_sendMessage (n : Nat) (s : Page) : Frame n s (sendMessage s) := by
  by_cases h : jsTrim s.chatInput = ""
  · rw [sendMessage_of_trim_empty s h]
    exact Frame.frame_refl n s
  · rw [sendMessage_of_trim_nonempty s h]
    exact (Frame.frame_of_eq rfl rfl).frame_trans (frame_setTimeout n _ _ _ (by simp [Action.target]))

theorem frame_initChat_sendMessage (n : Nat) (s : Page) :
    Frame n s (initChat_sendMessage s) := by
  by_cases h : jsTrim s.chatInput = ""
  · rw [initChat_sendMessage_of_trim_empty s h]
    exact Frame.frame_refl n s
  · rw [initChat_sendMessage_of_trim_nonempty s h]
    exact Frame.frame_of_eq rfl rfl

theorem frame_with_same (n : Nat) (s s' : Page) (hb : s'.body = s.body)
    (ht : s'.timers = s.timers) (hid : s'.nextId = s.nextId) (hn : n < s.nextId)
    (message type : String) : Frame n s (showNotification message type s') :=
  (Frame.frame_of_eq hb ht).frame_trans
    (frame_showNotification n message type s' (by rw [hid]; exact hn))

theorem frame_chatItemClick (n i : Nat) (s : Page) (hn : n < s.nextId) :
    Frame n s (chatItemClick i s) := by
  cases h : s.chatItems.get? i with
  | none =>
    rw [chatItemClick_of_none i s h]
    exact Frame.frame_refl n s
  | some item =>
    rw [chatItemClick_of_some i s item h]
    exact frame_with_same n s { s with chatItems := activate i s.chatItems } rfl rfl rfl hn _ _

theorem frame_loadConversation (n : Nat) (chatId : String) (s : Page) :
    Frame n s (loadConversation chatId s) :=
  (Frame.frame_of_eq rfl rfl).frame_trans
    (frame_setTimeout n 500 Action.conversationLoaded
      { s with chatMessages := loadingMessages } (by simp [Action.target]))

theorem frame_conversationClick (n i : Nat) (s : Page) : Frame n s (conversationClick i s) := by
  cases h : s.chatItems.get? i with
  | none =>
    rw [conversationClick_of_none i s h]
    exact Frame.frame_refl n s
  | some item =>
    rw [conversationClick_of_some i s item h]
    exact (Frame.frame_of_eq rfl rfl).frame_trans
      (frame_loadConversation n item.dataChat { s with chatItems := activate i s.chatItems })

theorem frame_searchDone (n : Nat) (searchTerm : String) (s : Page) (hn : n < s.nextId) :
    Frame n s (searchDone searchTerm s) := by
  rw [searchDone_eq]
  exact frame_with_same n s { s with petsGridOpacity := "1" } rfl rfl rfl hn _ _

theorem frame_performSearch (n : Nat) (s : Page) (hn : n < s.nextId) :
    Frame n s (performSearch s) := by
  by_cases h : jsTrim s.searchBox = ""
  · rw [performSearch_of_blank s h]
    exact frame_showNotification n _ _ s hn
  · rw [performSearch_of_nonblank s h]
    exact (Frame.frame_of_eq rfl rfl).frame_trans
      (frame_setTimeout n 800 (Action.searchDone s.searchBox)
        { s with petsGridOpacity := "0.5" } (by simp [Action.target]))

theorem frame_fire (n : Nat) (a : Action) (s : Page) (h : a.target ≠ some n)
    (hn : n < s.nextId) : Frame n s (fire a s) := by
  cases a with
  | autoRemove m => exact frame_autoRemove n m s (by simpa [Action.target] using h)
  | removeElement m => exact frame_removeElement n m s (by simpa [Action.target] using h)
  | simulateReply => exact frame_simulateReply n s
  | notifyChat petName => exact frame_showNotification n _ _ s hn
  | idleCheck =>
    rw [fire_idleCheck]
    exact frame_setTimeout n _ _ s (by simp [Action.target])
  | conversationLoaded => exact Frame.frame_of_eq rfl rfl
  | searchDone searchTerm => exact frame_searchDone n searchTerm s hn

theorem frame_fireAll (n : Nat) (l : List Timer) (s : Page)
    (h : ∀ t ∈ l, targets n t = false) (hn : n < s.nextId) : Frame n s (fireAll l s) := by
  induction l generalizing s with
  | nil => exact Frame.frame_refl n s
  | cons t l ih =>
    rw [fireAll_cons]
    have ht : t.action.target ≠ some n := by
      have := h t (List.mem_cons_self _ _)
      simpa [targets] using this
    exact (frame_fire n t.action s ht hn).frame_trans
      (ih _ (fun t' ht' => h t' (List.mem_cons_of_mem _ ht'))
        (lt_of_lt_of_le hn (grows_fire t.action s).1))

theorem filter_eq_singleton_split {α : Type} (p : α → Bool) (x : α) (l : List α)
    (h : l.filter p = [x]) :
    ∃ l₁ l₂, l = l₁ ++ x :: l₂ ∧ (∀ t ∈ l₁, p t = false) ∧ (∀ t ∈ l₂, p t = false) := by
  induction l with
  | nil => simp at h
  | cons a l ih =>
    rw [List.filter_cons] at h
    by_cases hp : p a = true
    · rw [if_pos hp] at h
      injection h with hax hrest
      refine ⟨[], l, by rw [hax]; rfl, ?_, ?_⟩
      · intro t ht
        cases ht
      intro t ht
      by_contra hne
      have hpt : p t = true := by simpa using hne
      have : t ∈ l.filter p := List.mem_filter.mpr ⟨ht, hpt⟩
      rw [hrest] at this
      cases this
    · rw [if_neg hp] at h
      obtain ⟨l₁, l₂, hl, h₁, h₂⟩ := ih h
      refine ⟨a :: l₁, l₂, by rw [hl]; rfl, ?_, h₂⟩
      intro t ht
      rcases List.mem_cons.mp ht with rfl | ht'
      · simpa using hp
      · exact h₁ t ht'

theorem dueTimers_filter_targets (n : Nat) (s : Page) :
    (dueTimers s).filter (targets n) =
      (timersFor n s).filter (fun t => decide (t.due ≤ s.now + 1)) := by
  unfold dueTimers timersFor
  rw [List.filter_filter, List.filter_filter]
  congr 1
  funext t
  exact Bool.and_comm _ _

theorem timersFor_tickStart (n : Nat) (s : Page) :
    timersFor n (tickStart s) =
      (timersFor n s).filter (fun t => !decide (t.due ≤ s.now + 1)) := by
  unfold tickStart timersFor
  rw [List.filter_filter, List.filter_filter]
  congr 1
  funext t
  exact Bool.and_comm _ _

theorem isAttached_tickStart (n : Nat) (s : Page) :
    isAttached n (tickStart s) = isAttached n s := rfl

/-- A tick at which no timer of `n` is due leaves `n` and its timers alone. -/
theorem frame_tick_quiet (n : Nat) (s : Page) (hn : n < s.nextId)
    (hq : ∀ t ∈ timersFor n s, s.now + 1 < t.due) : Frame n s (tick s) := by
  rw [tick_eq]
  have h0 : Frame n s (tickStart s) := by
    refine ⟨isAttached_tickStart n s, ?_⟩
    rw [timersFor_tickStart, List.filter_eq_self]
    intro t ht
    have := hq t ht
    simp
    omega
  apply h0.frame_trans
  apply frame_fireAll n _ (tickStart s) _ hn
  intro t ht
  by_contra hne
  have hp : targets n t = true := by simpa using hne
  have hmem : t ∈ (dueTimers s).filter (targets n) := List.mem_filter.mpr ⟨ht, hp⟩
  rw [dueTimers_filter_targets] at hmem
  have h1 := List.mem_filter.mp hmem
  have h2 := hq t h1.1
  have h3 : t.due ≤ s.now + 1 := by simpa using h1.2
  omega

/-- A tick at which the only timer of `n` is due: the callbacks before and
after it leave `n` alone. -/
theorem tick_fires_single (n : Nat) (s : Page) (x : Timer) (hn : n < s.nextId)
    (hx : timersFor n s = [x]) (hdue : x.due ≤ s.now + 1) :
    ∃ s₁ s₂, Frame n (tickStart s) s₁ ∧ timersFor n (tickStart s) = [] ∧
      s₁.now = s.now + 1 ∧ s₁.notifImpl = s.notifImpl ∧ n < s₁.nextId ∧
      s₂ = fire x.action s₁ ∧ Frame n s₂ (tick s) := by
  have hsplit : (dueTimers s).filter (targets n) = [x] := by
    rw [dueTimers_filter_targets, hx]
    simp [hdue]
  obtain ⟨l₁, l₂, hl, h₁, h₂⟩ := filter_eq_singleton_split _ _ _ hsplit
  have hn0 : n < (tickStart s).nextId := hn
  have hg1 := grows_fireAll l₁ (tickStart s)
  have hk1 := keeps_fireAll l₁ (tickStart s)
  refine ⟨fireAll l₁ (tickStart s), fire x.action (fireAll l₁ (tickStart s)),
    frame_fireAll n l₁ _ h₁ hn0, ?_, hk1.1, hg1.2.1, lt_of_lt_of_le hn0 hg1.1, rfl, ?_⟩
  · rw [timersFor_tickStart, hx]
    simp [hdue]
  · rw [tick_eq, hl, fireAll_append, fireAll_cons]
    apply frame_fireAll n l₂ _ h₂
    exact lt_of_lt_of_le (lt_of_lt_of_le hn0 hg1.1) (grows_fire _ _).1

/-! ## Notifications: the life of a notification nobody closes -/

theorem showNotification_chatMessages (message type : String) (s : Page) :
    (showNotification message type s).chatMessages = s.chatMessages := by
  unfold showNotification
  cases s.notifImpl <;>
    simp [showNotificationDashboard, showNotificationSite, appendChild, setTimeout]

theorem autoRemove_chatMessages (n : Nat) (s : Page) :
    (autoRemove n s).chatMessages = s.chatMessages := by
  unfold autoRemove
  split <;> rfl

theorem received_fire (a : Action) (s : Page) (ha : a ≠ Action.conversationLoaded) :
    received (fire a s) = received s + (if a = Action.simulateReply then 1 else 0) := by
  cases a with
  | autoRemove n =>
    show received (autoRemove n s) = _
    simp [received, autoRemove_chatMessages]
  | removeElement n => simp [received, fire, removeElement]
  | simulateReply => simp [received, fire, simulateReply, random, List.filter_append]
  | notifyChat petName => simp [received, fire, showNotification_chatMessages]
  | idleCheck =>
    rw [fire_idleCheck]
    simp [received, setTimeout]
  | conversationLoaded => exact absurd rfl ha
  | searchDone searchTerm =>
    show received (searchDone searchTerm s) = _
    rw [searchDone_eq]
    simp [received, showNotification_chatMessages]

/-- A callback schedules no `loadConversation` callback. -/
theorem noLoad_fire (a : Action) (s : Page) (h : NoLoadPending s) :
    NoLoadPending (fire a s) := by
  intro t ht
  cases a with
  | autoRemove n =>
    have ht' : t ∈ (autoRemove n s).timers := ht
    unfold autoRemove at ht'
    split at ht'
    · rcases List.mem_append.mp ht' with h' | h'
      · exact h t h'
      · rw [List.mem_singleton.mp h']
        simp
    · exact h t ht'
  | removeElement n => exact h t ht
  | simulateReply => exact h t ht
  | notifyChat petName =>
    have ht' : t ∈ (showNotification _ _ s).timers := ht
    rw [showNotification_timers] at ht'
    rcases List.mem_append.mp ht' with h' | h'
    · exact h t h'
    · rw [List.mem_singleton.mp h']
      simp
  | idleCheck =>
    have ht' : t ∈ (setTimeout 30000 Action.idleCheck s).timers :=
      (fire_idleCheck s) ▸ ht
    rcases List.mem_append.mp ht' with h' | h'
    · exact h t h'
    · rw [List.mem_singleton.mp h']
      simp
  | conversationLoaded => exact h t ht
  | searchDone searchTerm =>
    have ht' : t ∈ (searchDone searchTerm s).timers := ht
    rw [searchDone_eq, showNotification_timers] at ht'
    rcases List.mem_append.mp ht' with h' | h'
    · exact h t h'
    · rw [List.mem_singleton.mp h']
      simp

theorem noLoad_fireAll (l : List Timer) (s : Page) (h : NoLoadPending s) :
    NoLoadPending (fireAll l s) := by
  induction l generalizing s with
  | nil => exact h
  | cons t l ih => exact ih _ (noLoad_fire t.action s h)

theorem noLoad_tick (s : Page) (h : NoLoadPending s) : NoLoadPending (tick s) := by
  rw [tick_eq]
  apply noLoad_fireAll
  intro t ht
  exact h t (List.mem_filter.mp ht).1

theorem noLoad_ticks (m : Nat) (s : Page) (h : NoLoadPending s) :
    NoLoadPending (run (List.replicate m Event.tick) s) := by
  induction m generalizing s with
  | zero => exact h
  | succ m ih => exact ih (tick s) (noLoad_tick s h)

theorem noLoad_sendMessage (s : Page) (h : NoLoadPending s) : NoLoadPending (sendMessage s) := by
  by_cases hb : jsTrim s.chatInput = ""
  · rw [sendMessage_of_trim_empty s hb]
    exact h
  · rw [sendMessage_of_trim_nonempty s hb]
    intro t ht
    rcases List.mem_append.mp ht with h' | h'
    · exact h t h'
    · rw [List.mem_singleton.mp h']
      simp

theorem replyTimers_fire (a : Action) (s : Page) : replyTimers (fire a s) = replyTimers s := by
  cases a with
  | autoRemove n =>
    show replyTimers (autoRemove n s) = _
    unfold autoRemove
    split
    · simp [replyTimers, setTimeout, setAnimation, List.filter_append, isReply]
    · rfl
  | removeElement n => rfl
  | simulateReply => rfl
  | notifyChat petName =>
    show replyTimers (showNotification _ _ s) = _
    unfold replyTimers
    rw [showNotification_timers, List.filter_append]
    simp [isReply]
  | idleCheck =>
    rw [fire_idleCheck]
    simp [replyTimers, setTimeout, List.filter_append, isReply]
  | conversationLoaded => rfl
  | searchDone searchTerm =>
    show replyTimers (searchDone searchTerm s) = _
    rw [searchDone_eq]
    unfold replyTimers
    rw [showNotification_timers, List.filter_append]
    simp [isReply]

theorem replyTimers_fireAll (l : List Timer) (s : Page) :
    replyTimers (fireAll l s) = replyTimers s := by
  induction l generalizing s with
  | nil => rfl
  | cons t l ih => rw [fireAll_cons, ih, replyTimers_fire]

theorem isReply_iff (t : Timer) : isReply t = true ↔ t.action = Action.simulateReply := by
  unfold isReply
  cases t.action <;> simp

theorem received_fireAll (l : List Timer) (s : Page)
    (hl : ∀ t ∈ l, t.action ≠ Action.conversationLoaded) :
    received (fireAll l s) = received s + (l.filter isReply).length := by
  induction l generalizing s with
  | nil => rfl
  | cons t l ih =>
    rw [fireAll_cons, ih _ (fun t' ht' => hl t' (List.mem_cons_of_mem _ ht')),
      received_fire _ _ (hl t (List.mem_cons_self _ _)), List.filter_cons]
    by_cases h : isReply t = true
    · have ha := (isReply_iff t).mp h
      simp [h, ha]
      omega
    · have ha : t.action ≠ Action.simulateReply := fun h' => h ((isReply_iff t).mpr h')
      simp [h, ha]

theorem replyTimers_tick (s : Page) :
    replyTimers (tick s) = (replyTimers s).filter (fun t => !decide (t.due ≤ s.now + 1)) := by
  rw [tick_eq, replyTimers_fireAll]
  unfold replyTimers tickStart
  rw [List.filter_filter, List.filter_filter]
  congr 1
  funext t
  exact Bool.and_comm _ _

theorem received_tick (s : Page) (hl : NoLoadPending s) :
    received (tick s) =
      received s + ((replyTimers s).filter (fun t => decide (t.due ≤ s.now + 1))).length := by
  have hdue : ∀ t ∈ dueTimers s, t.action ≠ Action.conversationLoaded :=
    fun t ht => hl t (List.mem_filter.mp ht).1
  rw [tick_eq, received_fireAll _ _ hdue]
  congr 1
  unfold replyTimers dueTimers
  rw [List.filter_filter, List.filter_filter]
  congr 2
  funext t
  exact Bool.and_comm _ _

theorem run_ticks_succ (m : Nat) (s : Page) :
    run (List.replicate (m + 1) Event.tick) s = run (List.replicate m Event.tick) (tick s) := rfl

theorem run_ticks_now (m : Nat) (s : Page) :
    (run (List.replicate m Event.tick) s).now = s.now + m := by
  induction m generalizing s with
  | zero => rfl
  | succ m ih =>
    rw [run_ticks_succ, ih, tick_now]
    omega

/-- While no scheduled reply is due, ticks neither fire nor drop one. -/
theorem ticks_before_reply (m : Nat) (s : Page) (hl : NoLoadPending s)
    (h : ∀ t ∈ replyTimers s, s.now + m < t.due) :
    replyTimers (run (List.replicate m Event.tick) s) = replyTimers s ∧
    received (run (List.replicate m Event.tick) s) = received s := by
  induction m generalizing s with
  | zero => exact ⟨rfl, rfl⟩
  | succ m ih =>
    have hkeep : (replyTimers s).filter (fun t => !decide (t.due ≤ s.now + 1)) = replyTimers s := by
      rw [List.filter_eq_self]
      intro t ht
      have := h t ht
      simp
      omega
    have hnone : (replyTimers s).filter (fun t => decide (t.due ≤ s.now + 1)) = [] := by
      rw [List.filter_eq_nil_iff]
      intro t ht
      have := h t ht
      simp
      omega
    have ht : replyTimers (tick s) = replyTimers s := by rw [replyTimers_tick, hkeep]
    have hr : received (tick s) = received s := by rw [received_tick s hl, hnone]; rfl
    have := ih (tick s) (noLoad_tick s hl) (by
      intro t htm
      rw [ht] at htm
      have := h t htm
      rw [tick_now]
      omega)
    rw [run_ticks_succ]
    exact ⟨this.1.trans ht, this.2.trans hr⟩

/-- Once every scheduled reply is due, each has fired and appended its message. -/
theorem ticks_flush_replies (m : Nat) (s : Page) (hl : NoLoadPending s)
    (h : ∀ t ∈ replyTimers s, s.now < t.due ∧ t.due ≤ s.now + m) :
    replyTimers (run (List.replicate m Event.tick) s) = [] ∧
    received (run (List.replicate m Event.tick) s) = received s + (replyTimers s).length := by
  induction m generalizing s with
  | zero =>
    have hnil : replyTimers s = [] := by
      rw [List.eq_nil_iff_forall_not_mem]
      intro t ht
      have := h t ht
      omega
    exact ⟨hnil, by rw [hnil]; rfl⟩
  | succ m ih =>
    have hpart : ((replyTimers s).filter (fun t => decide (t.due ≤ s.now + 1))).length +
        ((replyTimers s).filter (fun t => !decide (t.due ≤ s.now + 1))).length =
        (replyTimers s).length := by
      have := @List.length_eq_length_filter_add _ (replyTimers s)
        (fun t => decide (t.due ≤ s.now + 1))
      omega
    have := ih (tick s) (noLoad_tick s hl) (by
      intro t htm
      rw [replyTimers_tick] at htm
      have h1 := List.mem_filter.mp htm
      have h2 := h t h1.1
      have h3 : ¬ t.due ≤ s.now + 1 := by simpa using h1.2
      rw [tick_now]
      omega)
    rw [run_ticks_succ]
    refine ⟨this.1, ?_⟩
    rw [this.2, received_tick s hl, replyTimers_tick]
    omega

theorem replyTimers_sendMessage (s : Page) (h : jsTrim s.chatInput ≠ "") :
    replyTimers (sendMessage s) =
      replyTimers s ++
        [{ due := s.now + toMillis (replyDelay (s.rand s.drawn)),
           action := Action.simulateReply }] := by
  rw [sendMessage_of_trim_nonempty s h]
  simp [replyTimers, setTimeout, List.filter_append, isReply]

theorem received_sendMessage (s : Page) : received (sendMessage s) = received s := by
  by_cases h : jsTrim s.chatInput = ""
  · rw [sendMessage_of_trim_empty s h]
  · rw [sendMessage_of_trim_nonempty s h]
    simp [received, setTimeout, List.filter_append]

theorem sendMessage_now (s : Page) : (sendMessage s).now = s.now := (keeps_sendMessage s).1

/-- Two sends, the second before the reply to the first has fired: both replies
stay scheduled, and both have been appended 3000 ms after the second send. -/
theorem sendTwice_replies (s : Page) (hclean : replyTimers s = []) (hload : NoLoadPending s)
    (v₁ v₂ : String)
    (h₁ : jsTrim v₁ ≠ "") (h₂ : jsTrim v₂ ≠ "") (k : Nat)
    (hk : k < toMillis (replyDelay (s.rand s.drawn))) (m : Nat) (hm : 3000 ≤ m) :
    (replyTimers (sendTwice v₁ v₂ k s)).length = 2 ∧
    received (sendTwice v₁ v₂ k s) = received s ∧
    received (run (List.replicate m Event.tick) (sendTwice v₁ v₂ k s)) = received s + 2 ∧
    replyTimers (run (List.replicate m Event.tick) (sendTwice v₁ v₂ k s)) = [] := by
  let s₁ := sendMessage { s with chatInput := v₁ }
  let w := run (List.replicate k Event.tick) s₁
  let w' : Page := { w with chatInput := v₂ }
  have hd₁ := toMillis_replyDelay_bounds (s.rand s.drawn)
  have hd₂ := toMillis_replyDelay_bounds (w'.rand w'.drawn)
  have hs₁t : replyTimers s₁ =
      [{ due := s.now + toMillis (replyDelay (s.rand s.drawn)),
         action := Action.simulateReply }] := by
    have := replyTimers_sendMessage { s with chatInput := v₁ } h₁
    rw [show replyTimers { s with chatInput := v₁ } = replyTimers s from rfl, hclean] at this
    exact this
  have hs₁r : received s₁ = received s := received_sendMessage { s with chatInput := v₁ }
  have hs₁n : s₁.now = s.now := sendMessage_now { s with chatInput := v₁ }
  have hl₁ : NoLoadPending s₁ := noLoad_sendMessage { s with chatInput := v₁ } hload
  have hlw : NoLoadPending w' := noLoad_ticks k s₁ hl₁
  have hl₂ : NoLoadPending (sendTwice v₁ v₂ k s) := noLoad_sendMessage w' hlw
  have hquiet := ticks_before_reply k s₁ hl₁ (by
    intro t ht
    rw [hs₁t, List.mem_singleton] at ht
    rw [ht, hs₁n]
    show s.now + k < s.now + toMillis (replyDelay (s.rand s.drawn))
    omega)
  have hwn : w'.now = s.now + k := by
    show (run (List.replicate k Event.tick) s₁).now = _
    rw [run_ticks_now, hs₁n]
  have hwt : replyTimers w' = replyTimers s₁ := hquiet.1
  have hwr : received w' = received s₁ := hquiet.2
  have ht₂ : replyTimers (sendTwice v₁ v₂ k s) =
      [{ due := s.now + toMillis (replyDelay (s.rand s.drawn)), action := Action.simulateReply },
       { due := s.now + k + toMillis (replyDelay (w'.rand w'.drawn)),
         action := Action.simulateReply }] := by
    show replyTimers (sendMessage w') = _
    rw [replyTimers_sendMessage w' h₂, hwt, hs₁t, hwn]
    rfl
  have hr₂ : received (sendTwice v₁ v₂ k s) = received s := by
    show received (sendMessage w') = _
    rw [received_sendMessage, hwr, hs₁r]
  have hn₂ : (sendTwice v₁ v₂ k s).now = s.now + k := by
    show (sendMessage w').now = _
    rw [sendMessage_now, hwn]
  have hflush := ticks_flush_replies m (sendTwice v₁ v₂ k s) hl₂ (by
    intro t ht
    rw [ht₂] at ht
    rw [hn₂]
    rcases List.mem_cons.mp ht with h | h
    · rw [h]
      show s.now + k < s.now + toMillis (replyDelay (s.rand s.drawn)) ∧
        s.now + toMillis (replyDelay (s.rand s.drawn)) ≤ s.now + k + m
      omega
    · rw [List.mem_singleton] at h
      rw [h]
      show s.now + k < s.now + k + toMillis (replyDelay (w'.rand w'.drawn)) ∧
        s.now + k + toMillis (replyDelay (w'.rand w'.drawn)) ≤ s.now + k + m
      omega)
  refine ⟨by rw [ht₂]; rfl, hr₂, ?_, hflush.1⟩
  rw [hflush.2, hr₂, ht₂]
  rfl

theorem freshPage_noLoad (impl : NotifImpl) (r : Draw) : NoLoadPending (freshPage impl r) := by
  intro t ht
  cases ht

theorem toMillis_replyDelay_drawZero : toMillis (replyDelay drawZero) = 1000 := by
  simp [toMillis, replyDelay, drawZero]

/-- C8 fails as stated: on a fresh page, `a` is sent and `b` is sent right
after; two reply timers are then outstanding, not at most one, and 3000 ms later
two replies have been appended after the second send, not one. -/
theorem second_send_counterexample :
    ¬ (replyTimers (sendTwice "a" "b" 0 (freshPage NotifImpl.dashboard drawZero))).length ≤ 1 ∧
    ¬ received (run (List.replicate 3000 Event.tick)
        (sendTwice "a" "b" 0 (freshPage NotifImpl.dashboard drawZero))) =
      received (sendTwice "a" "b" 0 (freshPage NotifImpl.dashboard drawZero)) + 1 := by
  have h := sendTwice_replies (freshPage NotifImpl.dashboard drawZero) rfl
    (freshPage_noLoad _ _) "a" "b" (by decide) (by decide) 0
    (by show 0 < toMillis (replyDelay drawZero); rw [toMillis_replyDelay_drawZero]; omega)
    3000 (le_refl _)
  rw [h.1, h.2.2.1, h.2.1]
  omega

/-- C8 as amended: `sendMessage` cancels no timer, so every non-empty send adds
its own reply timer.  From a page with no reply and no conversation load
pending, two non-empty sends with the second before the first reply has fired
leave two reply timers outstanding, and once 3000 ms have passed after the
second send both have fired: two replies in total are appended after the second
send. -/
theorem second_send_keeps_first_reply (s : Page) (hclean : replyTimers s = [])
    (hload : NoLoadPending s) (v₁ v₂ : String)
    (h₁ : jsTrim v₁ ≠ "") (h₂ : jsTrim v₂ ≠ "") (k : Nat)
    (hk : k < toMillis (replyDelay (s.rand s.drawn))) (m : Nat) (hm : 3000 ≤ m) :
    (replyTimers (sendTwice v₁ v₂ k s)).length = 2 ∧
    received (run (List.replicate m Event.tick) (sendTwice v₁ v₂ k s)) =
      received (sendTwice v₁ v₂ k s) + 2 ∧
    replyTimers (run (List.replicate m Event.tick) (sendTwice v₁ v₂ k s)) = [] := by
  have h := sendTwice_replies s hclean hload v₁ v₂ h₁ h₂ k hk m hm
  exact ⟨h.1, by rw [h.2.2.1, h.2.1], h.2.2.2⟩

theorem second_send_keeps_first_reply_witness :
    replyTimers (freshPage NotifImpl.dashboard drawZero) = [] ∧
    NoLoadPending (freshPage NotifImpl.dashboard drawZero) ∧
    jsTrim "a" ≠ "" ∧ jsTrim "b" ≠ "" ∧
    (replyTimers (sendTwice "a" "b" 0 (freshPage NotifImpl.dashboard drawZero))).length = 2 :=
  ⟨rfl, freshPage_noLoad _ _, by decide, by decide,
    (second_send_keeps_first_reply (freshPage NotifImpl.dashboard drawZero) rfl
      (freshPage_noLoad _ _) "a" "b" (by decide) (by decide) 0
      (by show 0 < toMillis (replyDelay drawZero); rw [toMillis_replyDelay_drawZero]; omega)
      3000 (le_refl _)).1⟩

/-! ## Well-formedness is an invariant -/

theorem wellFormed_of_grows {s s' : Page} (hwf : WellFormed s) (hg : Grows s s')
    (ht : ∀ t ∈ s'.timers, t ∈ s.timers ∨ ∀ id, t.action.target = some id → id < s'.nextId) :
    WellFormed s' := by
  constructor
  · intro e he
    rcases hg.2.2 e he with ⟨e₀, he₀, hid, _⟩ | hfresh
    · have := hwf.1 e₀ he₀
      have := hg.1
      omega
    · exact hfresh.2
  · intro t htm id hid
    rcases ht t htm with hold | hnew
    · exact lt_of_lt_of_le (hwf.2 t hold id hid) hg.1
    · exact hnew id hid

theorem lt_nextId_of_attached (n : Nat) (s : Page) (hwf : WellFormed s)
    (h : isAttached n s = true) : n < s.nextId := by
  rw [isAttached_eq_true_iff] at h
  obtain ⟨e, he, hid⟩ := h
  rw [← hid]
  exact hwf.1 e he

theorem isAttached_of_findElement (n : Nat) (k : ElemKind) (s : Page) (e : Element)
    (h : findElement n k s = some e) : isAttached n s = true := by
  rw [isAttached_eq_true_iff]
  unfold findElement at h
  have hm := List.mem_of_find?_eq_some h
  have hp := List.find?_some h
  refine ⟨e, hm, ?_⟩
  simp at hp
  exact hp.1

theorem mem_timers_setTimeout (d : Nat) (a : Action) (s : Page) (t : Timer)
    (h : t ∈ (setTimeout d a s).timers) :
    t ∈ s.timers ∨ t = { due := s.now + d, action := a } := by
  unfold setTimeout at h
  rcases List.mem_append.mp h with h' | h'
  · exact Or.inl h'
  · exact Or.inr (List.mem_singleton.mp h')

theorem wellFormed_showNotification (message type : String) (s : Page) (hwf : WellFormed s) :
    WellFormed (showNotification message type s) := by
  apply wellFormed_of_grows hwf (grows_showNotification message type s)
  intro t ht
  rw [showNotification_timers] at ht
  rcases List.mem_append.mp ht with h | h
  · exact Or.inl h
  · right
    rw [List.mem_singleton] at h
    intro id hid
    rw [h] at hid
    simp only [Action.target, Option.some.injEq] at hid
    rw [showNotification_nextId, ← hid]
    exact Nat.lt_succ_self _

/-- Scheduling the removal of an element that is in the document. -/
theorem wellFormed_schedule_removal (n d : Nat) (s s' : Page) (hwf : WellFormed s)
    (hg : Grows s s') (hn : n < s.nextId) (ht : s'.timers = s.timers) :
    WellFormed (setTimeout d (Action.removeElement n) s') := by
  apply wellFormed_of_grows hwf (hg.grows_trans (grows_setTimeout _ _ _))
  intro t htm
  rcases mem_timers_setTimeout _ _ _ _ htm with h | h
  · exact Or.inl (ht ▸ h)
  · right
    intro id hid
    rw [h] at hid
    simp only [Action.target, Option.some.injEq] at hid
    rw [← hid]
    exact lt_of_lt_of_le hn hg.1

theorem wellFormed_autoRemove (n : Nat) (s : Page) (hwf : WellFormed s) :
    WellFormed (autoRemove n s) := by
  unfold autoRemove
  split
  · rename_i h
    exact wellFormed_schedule_removal n 300 s _ hwf (grows_setAnimation _ _ _)
      (lt_nextId_of_attached n s hwf h) rfl
  · exact hwf

theorem wellFormed_removeElement (n : Nat) (s : Page) (hwf : WellFormed s) :
    WellFormed (removeElement n s) :=
  wellFormed_of_grows hwf (grows_removeElement n s) (fun _ ht => Or.inl ht)

theorem wellFormed_closeHandler (n : Nat) (s : Page) (hwf : WellFormed s)
    (h : isAttached n s = true) : WellFormed (closeHandler n s) := by
  unfold closeHandler
  cases s.notifImpl
  · exact wellFormed_schedule_removal n 300 s _ hwf (grows_setAnimation _ _ _)
      (lt_nextId_of_attached n s hwf h) rfl
  · exact wellFormed_removeElement n s hwf

theorem wellFormed_closeModal (n : Nat) (s : Page) (hwf : WellFormed s) (hn : n < s.nextId) :
    WellFormed (closeModal n s) :=
  wellFormed_schedule_removal n 300 s _ hwf
    ((grows_setAnimation _ _ _).grows_trans (grows_setContentAnimation _ _ _)) hn rfl

theorem wellFormed_setTimeout_untargeted (d : Nat) (a : Action) (s : Page)
    (hwf : WellFormed s) (ha : a.target = none) : WellFormed (setTimeout d a s) := by
  apply wellFormed_of_grows hwf (grows_setTimeout _ _ _)
  intro t htm
  rcases mem_timers_setTimeout _ _ _ _ htm with h | h
  · exact Or.inl h
  · right
    intro id hid
    rw [h] at hid
    rw [show ({ due := s.now + d, action := a } : Timer).action = a from rfl, ha] at hid
    cases hid

theorem wellFormed_confirmHandler (n : Nat) (petName : String) (s : Page)
    (hwf : WellFormed s) (hn : n < s.nextId) : WellFormed (confirmHandler n petName s) := by
  unfold confirmHandler
  apply wellFormed_setTimeout_untargeted 1000 (Action.notifyChat petName) _ _ rfl
  apply wellFormed_closeModal n _ (wellFormed_showNotification _ _ s hwf)
  rw [showNotification_nextId]
  omega

theorem wellFormed_showAdoptionModal (petName : String) (s : Page) (hwf : WellFormed s) :
    WellFormed (showAdoptionModal petName s) := by
  apply wellFormed_of_grows hwf (grows_showAdoptionModal petName s)
  intro t ht
  left
  simpa [showAdoptionModal, appendChild] using ht

theorem wellFormed_simulateReply (s : Page) (hwf : WellFormed s) :
    WellFormed (simulateReply s) :=
  wellFormed_of_grows hwf (grows_simulateReply s) (fun _ ht => Or.inl ht)

theorem wellFormed_sendMessage (s : Page) (hwf : WellFormed s) : WellFormed (sendMessage s) := by
  by_cases h : jsTrim s.chatInput = ""
  · rw [sendMessage_of_trim_empty s h]
    exact hwf
  · rw [sendMessage_of_trim_nonempty s h]
    apply wellFormed_setTimeout_untargeted _ Action.simulateReply _ _ rfl
    exact wellFormed_of_grows hwf (Grows.grows_of_eq rfl rfl rfl) (fun _ ht => Or.inl ht)

theorem wellFormed_initChat_sendMessage (s : Page) (hwf : WellFormed s) :
    WellFormed (initChat_sendMessage s) := by
  by_cases h : jsTrim s.chatInput = ""
  · rw [initChat_sendMessage_of_trim_empty s h]
    exact hwf
  · rw [initChat_sendMessage_of_trim_nonempty s h]
    exact wellFormed_of_grows hwf (Grows.grows_of_eq rfl rfl rfl) (fun _ ht => Or.inl ht)

theorem wellFormed_with_same (s s' : Page) (hwf : WellFormed s) (hb : s'.body = s.body)
    (ht : s'.timers = s.timers) (hid : s'.nextId = s.nextId) : WellFormed s' := by
  constructor
  · intro e he
    rw [hid]
    exact hwf.1 e (hb ▸ he)
  · intro t htm id h
    rw [hid]
    exact hwf.2 t (ht ▸ htm) id h

theorem wellFormed_chatItemClick (i : Nat) (s : Page) (hwf : WellFormed s) :
    WellFormed (chatItemClick i s) := by
  cases h : s.chatItems.get? i with
  | none =>
    rw [chatItemClick_of_none i s h]
    exact hwf
  | some item =>
    rw [chatItemClick_of_some i s item h]
    exact wellFormed_showNotification _ _ _
      (wellFormed_with_same s { s with chatItems := activate i s.chatItems } hwf rfl rfl rfl)

theorem wellFormed_loadConversation (chatId : String) (s : Page) (hwf : WellFormed s) :
    WellFormed (loadConversation chatId s) :=
  wellFormed_setTimeout_untargeted 500 Action.conversationLoaded _
    (wellFormed_with_same s { s with chatMessages := loadingMessages } hwf rfl rfl rfl) rfl

theorem wellFormed_conversationClick (i : Nat) (s : Page) (hwf : WellFormed s) :
    WellFormed (conversationClick i s) := by
  cases h : s.chatItems.get? i with
  | none =>
    rw [conversationClick_of_none i s h]
    exact hwf
  | some item =>
    rw [conversationClick_of_some i s item h]
    exact wellFormed_loadConversation _ _
      (wellFormed_with_same s { s with chatItems := activate i s.chatItems } hwf rfl rfl rfl)

theorem wellFormed_searchDone (searchTerm : String) (s : Page) (hwf : WellFormed s) :
    WellFormed (searchDone searchTerm s) := by
  rw [searchDone_eq]
  exact wellFormed_showNotification _ _ _
    (wellFormed_with_same s { s with petsGridOpacity := "1" } hwf rfl rfl rfl)

theorem wellFormed_performSearch (s : Page) (hwf : WellFormed s) :
    WellFormed (performSearch s) := by
  by_cases h : jsTrim s.searchBox = ""
  · rw [performSearch_of_blank s h]
    exact wellFormed_showNotification _ _ s hwf
  · rw [performSearch_of_nonblank s h]
    exact wellFormed_setTimeout_untargeted 800 (Action.searchDone s.searchBox) _
      (wellFormed_with_same s { s with petsGridOpacity := "0.5" } hwf rfl rfl rfl) rfl

theorem wellFormed_fire (a : Action) (s : Page) (hwf : WellFormed s) :
    WellFormed (fire a s) := by
  cases a with
  | autoRemove n => exact wellFormed_autoRemove n s hwf
  | removeElement n => exact wellFormed_removeElement n s hwf
  | simulateReply => exact wellFormed_simulateReply s hwf
  | notifyChat petName => exact wellFormed_showNotification _ _ s hwf
  | idleCheck =>
    rw [fire_idleCheck]
    exact wellFormed_setTimeout_untargeted _ Action.idleCheck s hwf rfl
  | conversationLoaded => exact ⟨hwf.1, hwf.2⟩
  | searchDone searchTerm => exact wellFormed_searchDone searchTerm s hwf

theorem wellFormed_fireAll (l : List Timer) (s : Page) (hwf : WellFormed s) :
    WellFormed (fireAll l s) := by
  induction l generalizing s with
  | nil => exact hwf
  | cons t l ih => exact ih _ (wellFormed_fire t.action s hwf)

theorem wellFormed_tick (s : Page) (hwf : WellFormed s) : WellFormed (tick s) := by
  rw [tick_eq]
  apply wellFormed_fireAll
  exact ⟨hwf.1, fun t ht => hwf.2 t (List.mem_filter.mp ht).1⟩

theorem wellFormed_step (ev : Event) (s : Page) (hwf : WellFormed s) :
    WellFormed (step ev s) := by
  cases ev with
  | tick => exact wellFormed_tick s hwf
  | callShowNotification message type => exact wellFormed_showNotification _ _ s hwf
  | clickNotificationClose n =>
    simp only [step]
    split
    · rename_i e he
      exact wellFormed_closeHandler n s hwf (isAttached_of_findElement n _ s e he)
    · exact hwf
  | typeChatInput value => exact ⟨hwf.1, hwf.2⟩
  | clickSend => exact wellFormed_sendMessage s hwf
  | clickSendButton => exact wellFormed_initChat_sendMessage s hwf
  | callShowAdoptionModal petName => exact wellFormed_showAdoptionModal _ s hwf
  | clickModalClose n =>
    simp only [step]
    split
    · rename_i e he
      exact wellFormed_closeModal n s hwf
        (lt_nextId_of_attached n s hwf (isAttached_of_findElement n _ s e he))
    · exact hwf
  | clickConfirmAdoption n =>
    simp only [step]
    split
    · rename_i e he
      exact wellFormed_confirmHandler n _ s hwf
        (lt_nextId_of_attached n s hwf (isAttached_of_findElement n _ s e he))
    · exact hwf
  | clickChatItem i => exact wellFormed_chatItemClick i s hwf
  | clickConversation i => exact wellFormed_conversationClick i s hwf
  | typeSearch value => exact ⟨hwf.1, hwf.2⟩
  | clickSearch => exact wellFormed_performSearch s hwf

/-- Every page reached from a well-formed page, a fresh page in particular, is
well-formed. -/
theorem wellFormed_run (evs : List Event) (s : Page) (hwf : WellFormed s) :
    WellFormed (run evs s) := by
  induction evs generalizing s with
  | nil => exact hwf
  | cons ev evs ih => exact ih _ (wellFormed_step ev s hwf)

/-! ## Adoption modal: repeated clicks -/

theorem notificationsOfType_length_map (type : String) (f : Element → Element)
    (hk : ∀ e, (f e).kind = e.kind) (hc : ∀ e, (f e).className = e.className) (s : Page) :
    (notificationsOfType type { s with body := s.body.map f }).length =
      (notificationsOfType type s).length := by
  unfold notificationsOfType
  simp only [List.filter_map, List.length_map]
  congr 2
  funext e
  simp [hk e, hc e]

theorem notificationsOfType_setAnimation (type : String) (n : Nat) (a : String) (s : Page) :
    (notificationsOfType type (setAnimation n a s)).length =
      (notificationsOfType type s).length := by
  apply notificationsOfType_length_map
  · intro e
    split <;> rfl
  · intro e
    split <;> rfl

theorem notificationsOfType_setContentAnimation (type : String) (n : Nat) (a : String)
    (s : Page) :
    (notificationsOfType type (setContentAnimation n a s)).length =
      (notificationsOfType type s).length := by
  apply notificationsOfType_length_map
  · intro e
    split <;> rfl
  · intro e
    split <;> rfl

theorem newNotification_className (message type : String) (s : Page) :
    (newNotification message type s).className = "notification notification-" ++ type := by
  unfold newNotification
  cases s.notifImpl <;> rfl

theorem notificationsOfType_showNotification (message type : String) (s : Page) :
    notificationsOfType type (showNotification message type s) =
      notificationsOfType type s ++ [newNotification message type s] := by
  unfold notificationsOfType
  rw [showNotification_body, List.filter_append]
  simp [newNotification_kind, newNotification_className]

theorem notificationsOfType_closeModal (type : String) (n : Nat) (s : Page) :
    (notificationsOfType type (closeModal n s)).length = (notificationsOfType type s).length := by
  unfold closeModal
  show (notificationsOfType type (setContentAnimation n _ (setAnimation n _ s))).length = _
  rw [notificationsOfType_setContentAnimation, notificationsOfType_setAnimation]

theorem closeModal_timers (n : Nat) (s : Page) :
    (closeModal n s).timers =
      s.timers ++ [{ due := s.now + 300, action := Action.removeElement n }] := rfl

theorem confirmHandler_timers (n : Nat) (petName : String) (s : Page) :
    (confirmHandler n petName s).timers =
      s.timers ++
        [{ due := s.now + 5000, action := Action.autoRemove s.nextId },
         { due := s.now + 300, action := Action.removeElement n },
         { due := s.now + 1000, action := Action.notifyChat petName }] := by
  unfold confirmHandler
  simp only [setTimeout, closeModal, setAnimation, setContentAnimation,
    showNotification_timers, showNotification_now, List.append_assoc, List.singleton_append]
  rfl

theorem confirmHandler_notifications (n : Nat) (petName : String) (s : Page) :
    (notificationsOfType "success" (confirmHandler n petName s)).length =
      (notificationsOfType "success" s).length + 1 := by
  unfold confirmHandler
  show (notificationsOfType "success" (closeModal n (showNotification _ "success" s))).length = _
  rw [notificationsOfType_closeModal, notificationsOfType_showNotification]
  simp

/-- C11 fails as stated: on a fresh page with the adoption modal open, a second
click on the confirm button before the overlay is removed emits a second success
notification and schedules three more timers. -/
theorem second_confirm_counterexample :
    isAttached 0 confirmedPage = true ∧
    (notificationsOfType "success" confirmedPage).length = 1 ∧
    (notificationsOfType "success"
      (step (Event.clickConfirmAdoption 0) confirmedPage)).length = 2 ∧
    confirmedPage.timers.length = 3 ∧
    (step (Event.clickConfirmAdoption 0) confirmedPage).timers.length = 6 := by
  decide

/-- C11 as amended: every click on the confirm, cancel or close button of an
adoption modal that is in the document has its full effect, a repeated click
too: a confirm click emits one more success notification and schedules three
more timers (the 5000 ms callback of the notification, a 300 ms removal of the
overlay and the 1000 ms chat notification), a cancel or close click emits no
notification and schedules one more 300 ms removal.  A click has no effect only
once the overlay has left the document. -/
theorem modal_clicks_each_act (s : Page) (n : Nat) :
    (∀ e, findElement n ElemKind.modalOverlay s = some e →
      (notificationsOfType "success" (step (Event.clickConfirmAdoption n) s)).length =
        (notificationsOfType "success" s).length + 1 ∧
      (step (Event.clickConfirmAdoption n) s).timers =
        s.timers ++
          [{ due := s.now + 5000, action := Action.autoRemove s.nextId },
           { due := s.now + 300, action := Action.removeElement n },
           { due := s.now + 1000, action := Action.notifyChat e.text }] ∧
      (∀ type, (notificationsOfType type (step (Event.clickModalClose n) s)).length =
        (notificationsOfType type s).length) ∧
      (step (Event.clickModalClose n) s).timers =
        s.timers ++ [{ due := s.now + 300, action := Action.removeElement n }]) ∧
    (findElement n ElemKind.modalOverlay s = none →
      step (Event.clickConfirmAdoption n) s = s ∧ step (Event.clickModalClose n) s = s) := by
  constructor
  · intro e he
    have hc : step (Event.clickConfirmAdoption n) s = confirmHandler n e.text s := by
      simp only [step, he]
    have hm : step (Event.clickModalClose n) s = closeModal n s := by
      simp only [step, he]
    rw [hc, hm]
    exact ⟨confirmHandler_notifications n e.text s, confirmHandler_timers n e.text s,
      fun type => notificationsOfType_closeModal type n s, closeModal_timers n s⟩
  · intro hnone
    constructor
    · simp only [step, hnone]
    · simp only [step, hnone]

theorem modal_clicks_each_act_witness :
    findElement 0 ElemKind.modalOverlay openModalPage = some (adoptionOverlay 0 "Max") ∧
    (step (Event.clickModalClose 0) openModalPage).timers =
      openModalPage.timers ++
        [{ due := openModalPage.now + 300, action := Action.removeElement 0 }] :=
  ⟨by decide, ((modal_clicks_each_act openModalPage 0).1 (adoptionOverlay 0 "Max")
    (by decide)).2.2.2⟩

/-! ## Adoption modal: the confirm click -/

theorem confirmListener_notifyNormally (n : Nat) (petName : String) (s : Page) :
    confirmListener notifyNormally n petName s =
      { page := confirmHandler n petName s, thrown := none } := rfl

/-- Every event other than a tick and a click on a button of `n` leaves `n` and
its timers alone. -/
theorem frame_step_unclicked (n : Nat) (ev : Event) (s : Page) (htick : ev ≠ Event.tick)
    (hclick : clicksOn n ev = false) (hn : n < s.nextId) : Frame n s (step ev s) := by
  cases ev with
  | tick => exact absurd rfl htick
  | callShowNotification message type => exact frame_showNotification n _ _ s hn
  | clickNotificationClose m =>
    have hm : m ≠ n := by simpa [clicksOn] using hclick
    simp only [step]
    split
    · exact frame_closeHandler n m s hm
    · exact Frame.frame_refl n s
  | typeChatInput value => exact Frame.frame_of_eq rfl rfl
  | clickSend => exact frame_sendMessage n s
  | clickSendButton => exact frame_initChat_sendMessage n s
  | callShowAdoptionModal petName => exact frame_showAdoptionModal n _ s hn
  | clickModalClose m =>
    have hm : m ≠ n := by simpa [clicksOn] using hclick
    simp only [step]
    split
    · exact frame_closeModal n m s hm
    · exact Frame.frame_refl n s
  | clickConfirmAdoption m =>
    have hm : m ≠ n := by simpa [clicksOn] using hclick
    simp only [step]
    split
    · exact frame_confirmHandler n m _ s hm hn
    · exact Frame.frame_refl n s
  | clickChatItem i => exact frame_chatItemClick n i s hn
  | clickConversation i => exact frame_conversationClick n i s
  | typeSearch value => exact Frame.frame_of_eq rfl rfl
  | clickSearch => exact frame_performSearch n s hn

theorem clicksOn_tick (n : Nat) : clicksOn n Event.tick = false := rfl

theorem closing_step_other (n t₀ k : Nat) (ev : Event) (s : Page) (h : Closing n t₀ k s)
    (htick : ev ≠ Event.tick) (hclick : clicksOn n ev = false) :
    Closing n t₀ k (step ev s) := by
  obtain ⟨hn, hnow, hph⟩ := h
  have hg := grows_step ev s
  have hk := keeps_step ev s htick
  have hf := frame_step_unclicked n ev s htick hclick hn
  refine ⟨lt_of_lt_of_le hn hg.1, hk.1.trans hnow, ?_⟩
  rcases hph with ⟨h1, h2, h3⟩ | ⟨h1, h2⟩
  · exact Or.inl ⟨h1, hf.1.trans h2, hf.2.trans h3⟩
  · exact Or.inr ⟨h1, detached_of_grows n hg hn h2⟩

theorem closing_tick (n t₀ k : Nat) (s : Page) (h : Closing n t₀ k s) :
    Closing n t₀ (k + 1) (tick s) := by
  obtain ⟨hn, hnow, hph⟩ := h
  have hg := grows_tick s
  refine ⟨lt_of_lt_of_le hn hg.1, ?_, ?_⟩
  · rw [tick_now, hnow]
    omega
  rcases hph with ⟨h1, h2, h3⟩ | ⟨h1, h2⟩
  · by_cases hlast : k + 1 < 300
    · have hf := frame_tick_quiet n s hn (by
        intro t ht
        rw [h3, List.mem_singleton] at ht
        rw [ht, hnow]
        show t₀ + k + 1 < t₀ + 300
        omega)
      exact Or.inl ⟨hlast, hf.1.trans h2, hf.2.trans h3⟩
    · obtain ⟨s₁, s₂, _, _, _, _, _, hs2, hf2⟩ :=
        tick_fires_single n s _ hn h3 (by rw [hnow]; show t₀ + 300 ≤ t₀ + k + 1; omega)
      have hatt2 : isAttached n s₂ = false := by
        rw [hs2]
        exact isAttached_removeElement n s₁
      exact Or.inr ⟨by omega, hf2.1.trans hatt2⟩
  · exact Or.inr ⟨by omega, detached_of_grows n hg hn h2⟩

theorem closing_run (n t₀ k : Nat) (evs : List Event) (s : Page) (h : Closing n t₀ k s)
    (hno : ∀ ev ∈ evs, clicksOn n ev = false) :
    Closing n t₀ (k + elapsed evs) (run evs s) := by
  induction evs generalizing s k with
  | nil => exact h
  | cons ev evs ih =>
    rw [run_cons]
    have hev' := hno ev (List.mem_cons_self _ _)
    have hno' : ∀ ev' ∈ evs, clicksOn n ev' = false := fun ev' hm =>
      hno ev' (List.mem_cons_of_mem _ hm)
    by_cases hev : ev = Event.tick
    · subst hev
      rw [elapsed_tick]
      have := ih (k + 1) (tick s) (closing_tick n t₀ k s h) hno'
      rw [show k + (elapsed evs + 1) = k + 1 + elapsed evs by omega]
      exact this
    · rw [elapsed_cons_of_ne ev evs hev]
      exact ih k _ (closing_step_other n t₀ k ev s h hev hev') hno'

theorem timersFor_confirmHandler (n : Nat) (petName : String) (s : Page) (hn : n < s.nextId) :
    timersFor n (confirmHandler n petName s) =
      timersFor n s ++ [{ due := s.now + 300, action := Action.removeElement n }] := by
  unfold timersFor
  rw [confirmHandler_timers, List.filter_append]
  have hne : s.nextId ≠ n := by omega
  simp [targets, Action.target, hne]

theorem isAttached_confirmHandler (n : Nat) (petName : String) (s : Page) (hn : n < s.nextId) :
    isAttached n (confirmHandler n petName s) = isAttached n s := by
  unfold confirmHandler
  show isAttached n (closeModal n (showNotification _ "success" s)) = _
  unfold closeModal
  show isAttached n (setContentAnimation n _ (setAnimation n _ (showNotification _ _ s))) = _
  rw [(frame_setContentAnimation n n _ _).1, (frame_setAnimation n n _ _).1,
    (frame_showNotification n _ _ s hn).1]

/-- While no timer is pending, ticks only move the clock. -/
theorem ticks_without_timers (m : Nat) (s : Page) (h : s.timers = []) :
    (run (List.replicate m Event.tick) s).body = s.body ∧
    (run (List.replicate m Event.tick) s).timers = [] := by
  induction m generalizing s with
  | zero => exact ⟨rfl, h⟩
  | succ m ih =>
    rw [run_ticks_succ]
    have htick : tick s = { s with now := s.now + 1 } := by
      unfold tick
      simp [h, fireAll]
    have := ih (tick s) (by rw [htick]; exact h)
    rw [htick] at this ⊢
    exact this

/-- C12 fails as stated: on a page where the call of `showNotification` throws,
a confirm click on the open adoption modal leaves the page as it was; no removal
is scheduled and the overlay is still in the document 300 ms later. -/
theorem confirm_throw_counterexample :
    (confirmListener notifyUnbound 0 "Max" openModalPage).thrown ≠ none ∧
    (confirmListener notifyUnbound 0 "Max" openModalPage).page.timers = [] ∧
    isAttached 0 (run (List.replicate 300 Event.tick)
      (confirmListener notifyUnbound 0 "Max" openModalPage).page) = true := by
  refine ⟨by decide, by decide, ?_⟩
  have h := (ticks_without_timers 300 (confirmListener notifyUnbound 0 "Max" openModalPage).page
    (by decide)).1
  unfold isAttached
  rw [h]
  decide

/-- C12 as amended: on a well-formed page a confirm click on an adoption modal
that is in the document calls `showNotification` once (one more success
notification); when the call returns normally the overlay is out of the document
once 300 ms have passed, whatever else happens, and, when no removal was pending
and no button of the overlay is clicked meanwhile, not before.  When the call
throws, the listener ends with that exception: `closeModal` does not run and the
page is left as the call left it. -/
theorem confirm_click_closes (s : Page) (hwf : WellFormed s) (n : Nat) (e : Element)
    (hfind : findElement n ElemKind.modalOverlay s = some e) (evs : List Event) :
    step (Event.clickConfirmAdoption n) s = (confirmListener notifyNormally n e.text s).page ∧
    (notificationsOfType "success" (step (Event.clickConfirmAdoption n) s)).length =
      (notificationsOfType "success" s).length + 1 ∧
    (300 ≤ elapsed evs →
      isAttached n (run evs (step (Event.clickConfirmAdoption n) s)) = false) ∧
    (timersFor n s = [] → (∀ ev ∈ evs, clicksOn n ev = false) → elapsed evs < 300 →
      isAttached n (run evs (step (Event.clickConfirmAdoption n) s)) = true) ∧
    (∀ (notify : String → String → Page → Completion) (err : String),
      (notify ("Adoption process started for " ++ e.text ++ "!") "success" s).thrown = some err →
      confirmListener notify n e.text s =
        { page := (notify ("Adoption process started for " ++ e.text ++ "!") "success" s).page,
          thrown := some err }) := by
  have hc : step (Event.clickConfirmAdoption n) s = confirmHandler n e.text s := by
    simp only [step, hfind]
  have hatt : isAttached n s = true := isAttached_of_findElement n _ s e hfind
  have hn : n < s.nextId := lt_nextId_of_attached n s hwf hatt
  have hg := grows_confirmHandler n e.text s
  have hk := keeps_confirmHandler n e.text s
  have hn' : n < (confirmHandler n e.text s).nextId := lt_of_lt_of_le hn hg.1
  rw [hc]
  refine ⟨rfl, confirmHandler_notifications n e.text s, ?_, ?_, ?_⟩
  · intro hel
    apply pending_removal_fires n (s.now + 300) evs _ _ hn'
    · rw [hk.1]
      omega
    · rw [hk.1]
      omega
    · rw [confirmHandler_timers]
      simp
  · intro hnone hno hlt
    have hclosing : Closing n s.now 0 (confirmHandler n e.text s) := by
      refine ⟨hn', hk.1, Or.inl ⟨by omega, ?_, ?_⟩⟩
      · rw [isAttached_confirmHandler n e.text s hn]
        exact hatt
      · rw [timersFor_confirmHandler n e.text s hn, hnone]
        rfl
    obtain ⟨_, _, hph⟩ := closing_run n s.now 0 evs _ hclosing hno
    rcases hph with ⟨_, h2, _⟩ | ⟨h1, _⟩
    · exact h2
    · omega
  · intro notify err herr
    unfold confirmListener
    simp only [herr]

theorem openModalPage_wellFormed : WellFormed openModalPage :=
  wellFormed_showAdoptionModal "Max" _ (freshPage_wellFormed _ _)

theorem confirm_click_closes_witness :
    WellFormed openModalPage ∧
    findElement 0 ElemKind.modalOverlay openModalPage = some (adoptionOverlay 0 "Max") ∧
    isAttached 0 (run (List.replicate 300 Event.tick)
      (step (Event.clickConfirmAdoption 0) openModalPage)) = false :=
  ⟨openModalPage_wellFormed, by decide,
    (confirm_click_closes openModalPage openModalPage_wellFormed 0 (adoptionOverlay 0 "Max")
      (by decide) (List.replicate 300 Event.tick)).2.2.1
      (le_of_eq (elapsed_replicate 300).symm)⟩

/-! ## Chat: the idle check -/

theorem idleCheckBody_of_recent (t₁ t₂ : Nat) (s : Page) (h : t₂ ≤ t₁ + 120000) :
    idleCheckBody t₁ t₂ s = s := by
  have hq : ((t₂ : ℚ) - (t₁ : ℚ)) / (1000 * 60) ≤ 2 := by
    have h' : (t₂ : ℚ) ≤ (t₁ : ℚ) + 120000 := by exact_mod_cast h
    rw [div_le_iff₀ (by norm_num)]
    linarith
  unfold idleCheckBody
  simp only [not_lt.mpr hq, if_false]

/-- C18: one firing of the idle check appends no message, changes no badge and
draws no random number: both clock reads give the clock of the page, the elapsed
time is zero and the injection branch is not reached; the same holds whenever
the second read is at most two minutes after the first. -/
theorem idle_check_changes_nothing (s : Page) :
    (idleCheck s).chatMessages = s.chatMessages ∧
    (idleCheck s).chatItems = s.chatItems ∧
    (idleCheck s).drawn = s.drawn ∧
    idleCheck s = s ∧
    (fire Action.idleCheck s).chatMessages = s.chatMessages ∧
    (fire Action.idleCheck s).chatItems = s.chatItems ∧
    (∀ t₁ t₂ : Nat, t₂ ≤ t₁ + 120000 → idleCheckBody t₁ t₂ s = s) := by
  have h := idleCheck_eq s
  refine ⟨by rw [h], by rw [h], by rw [h], h, ?_, ?_, ?_⟩
  · rw [fire_idleCheck]
    rfl
  · rw [fire_idleCheck]
    rfl
  · intro t₁ t₂ ht
    exact idleCheckBody_of_recent t₁ t₂ s ht

theorem idle_check_changes_nothing_witness :
    (180000 : Nat) ≤ 60001 + 120000 ∧ idleCheckBody 60001 180000 idlePage = idlePage :=
  ⟨by decide, (idle_check_changes_nothing idlePage).2.2.2.2.2.2 60001 180000 (by decide)⟩

/-- The injection branch: reached only when the first clock read is more than
two minutes before the second and the draw is below `3/10`. -/
theorem idleCheckBody_of_idle (t₁ t₂ : Nat) (s : Page) (h : t₁ + 120000 < t₂)
    (hr : (s.rand s.drawn).val < 3 / 10) :
    idleCheckBody t₁ t₂ s = injectPrompt { s with drawn := s.drawn + 1 } := by
  have hq : (2 : ℚ) < ((t₂ : ℚ) - (t₁ : ℚ)) / (1000 * 60) := by
    have h' : (t₁ : ℚ) + 120000 < (t₂ : ℚ) := by exact_mod_cast h
    rw [lt_div_iff₀ (by norm_num)]
    linarith
  unfold idleCheckBody
  simp only [hq, if_true, random, hr]

theorem injectPrompt_chatMessages (s : Page) :
    (injectPrompt s).chatMessages =
      s.chatMessages ++
        [{ className := "message received",
           text := (prompts.get? (promptIndex (s.rand s.drawn))).getD "undefined",
           time := s.now }] := rfl

theorem injectPrompt_chatItems (s : Page) :
    (injectPrompt s).chatItems = updateFirst (fun c => c.active) bumpBadge s.chatItems := rfl

theorem promptIndex_drawTenth : promptIndex drawTenth = 0 := by
  have h : Int.floor ((1 / 10 : ℚ) * ((4 : ℕ) : ℚ)) = 0 := by
    rw [Int.floor_eq_iff]
    norm_num
  show (Int.floor ((1 / 10 : ℚ) * ((prompts.length : ℕ) : ℚ))).toNat = 0
  rw [show prompts.length = 4 from rfl, h]
  rfl

/-- C13, the code at the failing input: three minutes after the last message,
with the draw `1/10` forcing the trigger, one firing of the idle check leaves the
message list and the badge `2` as they are.  Had the elapsed time been taken from
the time of the last message, the same code would have appended the first prompt
and set the badge to `3`. -/
theorem idle_check_ignores_idle_time :
    (idleCheck idlePage).chatMessages = idlePage.chatMessages ∧
    (idleCheck idlePage).chatItems = idlePage.chatItems ∧
    (idleCheckBody 0 180000 idlePage).chatMessages =
      idlePage.chatMessages ++
        [{ className := "message received",
           text := "Hi! Are you still interested in adopting?", time := 180000 }] ∧
    (idleCheckBody 0 180000 idlePage).chatItems =
      [{ userName := "Sarah", dataChat := "1", active := true, badge := some "3" }] := by
  have h := idleCheck_eq idlePage
  have hb : idleCheckBody 0 180000 idlePage =
      injectPrompt { idlePage with drawn := idlePage.drawn + 1 } :=
    idleCheckBody_of_idle 0 180000 idlePage (by decide)
      (by show (1 / 10 : ℚ) < 3 / 10; norm_num)
  refine ⟨by rw [h], by rw [h], ?_, ?_⟩
  · have hidx : promptIndex
        (({ idlePage with drawn := idlePage.drawn + 1 } : Page).rand
          ({ idlePage with drawn := idlePage.drawn + 1 } : Page).drawn) = 0 :=
      promptIndex_drawTenth
    rw [hb, injectPrompt_chatMessages, hidx]
    rfl
  · rw [hb, injectPrompt_chatItems]
    decide

/-! ## Chat: selecting a conversation -/

theorem showNotification_chatItems (message type : String) (s : Page) :
    (showNotification message type s).chatItems = s.chatItems := by
  unfold showNotification
  cases s.notifImpl <;>
    simp [showNotificationDashboard, showNotificationSite, appendChild, setTimeout]

theorem activate_badges (i : Nat) (items : List ChatItem) :
    (activate i items).map (fun c => c.badge) = items.map (fun c => c.badge) := by
  unfold activate
  simp only
  split
  · rename_i item hitem
    apply List.ext_getElem?
    intro j
    simp only [List.getElem?_map, List.getElem?_set]
    by_cases hj : i = j
    · subst hj
      have hitem' : (List.map (fun c => ({ c with active := false } : ChatItem)) items)[i]? =
          some item := by simpa using hitem
      simp only [List.getElem?_map] at hitem'
      cases hget : items[i]? with
      | none => simp [hget] at hitem'
      | some c =>
        simp only [hget, Option.map_some', Option.some.injEq] at hitem'
        have hlt : i < items.length := by
          rcases List.getElem?_eq_some.mp hget with ⟨h, _⟩
          exact h
        simp [hget, ← hitem', hlt]
    · simp only [hj, if_false, List.getElem?_map]
      cases items[j]? <;> rfl
  · simp [List.map_map]

theorem activate_active (i : Nat) (items : List ChatItem) (hi : i < items.length) (j : Nat) :
    ((activate i items).get? j).map (fun c => c.active) =
      (items.get? j).map (fun _ => decide (j = i)) := by
  unfold activate
  simp only
  have hsome : (List.map (fun c => ({ c with active := false } : ChatItem)) items).get? i =
      some { items[i] with active := false } := by
    simp [List.getElem?_eq_getElem hi]
  rw [hsome]
  simp only [List.get?_eq_getElem?, List.getElem?_set, List.getElem?_map]
  by_cases hj : i = j
  · subst hj
    simp [hi, List.getElem?_eq_getElem hi]
  · have hj' : ¬ j = i := fun h => hj h.symm
    simp only [hj, if_false, hj', decide_False]
    cases items[j]? <;> rfl

/-- C14 fails as stated: on a page whose conversation shows the unread badge
`3`, selecting that conversation leaves the badge at `3`, with either click
listener. -/
theorem select_keeps_badge_counterexample :
    (unreadPage.chatItems.map unreadCount) = [3] ∧
    ((step (Event.clickChatItem 0) unreadPage).chatItems.map unreadCount) = [3] ∧
    ((step (Event.clickConversation 0) unreadPage).chatItems.map unreadCount) = [3] ∧
    ¬ ((step (Event.clickChatItem 0) unreadPage).chatItems.map unreadCount) = [0] := by
  decide

/-- C14 as amended: selecting a conversation, with the `.chat-item` listener or
the `.conversation` listener of `initChat`, marks it active and every other
conversation inactive and leaves the unread badge of every conversation, the
selected one included, as it was. -/
theorem select_marks_active_only (s : Page) (i : Nat) :
    (chatItemClick i s).chatItems.map (fun c => c.badge) = s.chatItems.map (fun c => c.badge) ∧
    (conversationClick i s).chatItems.map (fun c => c.badge) =
      s.chatItems.map (fun c => c.badge) ∧
    (chatItemClick i s).chatItems.map unreadCount = s.chatItems.map unreadCount ∧
    (conversationClick i s).chatItems.map unreadCount = s.chatItems.map unreadCount ∧
    (i < s.chatItems.length →
      (chatItemClick i s).chatItems = activate i s.chatItems ∧
      (conversationClick i s).chatItems = activate i s.chatItems ∧
      ∀ j, ((activate i s.chatItems).get? j).map (fun c => c.active) =
        (s.chatItems.get? j).map (fun _ => decide (j = i))) := by
  have hchat : (chatItemClick i s).chatItems.map (fun c => c.badge) =
      s.chatItems.map (fun c => c.badge) := by
    cases h : s.chatItems.get? i with
    | none => rw [chatItemClick_of_none i s h]
    | some item =>
      rw [chatItemClick_of_some i s item h, showNotification_chatItems]
      exact activate_badges i s.chatItems
  have hconv : (conversationClick i s).chatItems.map (fun c => c.badge) =
      s.chatItems.map (fun c => c.badge) := by
    cases h : s.chatItems.get? i with
    | none => rw [conversationClick_of_none i s h]
    | some item =>
      rw [conversationClick_of_some i s item h]
      exact activate_badges i s.chatItems
  have hcount : ∀ l : List ChatItem, l.map unreadCount =
      (l.map (fun c => c.badge)).map (fun b => (parseInt (b.getD "")).getD 0) := by
    intro l
    rw [List.map_map]
    rfl
  refine ⟨hchat, hconv, ?_, ?_, ?_⟩
  · rw [hcount, hcount, hchat]
  · rw [hcount, hcount, hconv]
  · intro hi
    have hget : s.chatItems.get? i = some s.chatItems[i] := by
      simp [List.getElem?_eq_getElem hi]
    refine ⟨?_, ?_, fun j => activate_active i s.chatItems hi j⟩
    · rw [chatItemClick_of_some i s _ hget, showNotification_chatItems]
    · rw [conversationClick_of_some i s _ hget]
      rfl

theorem select_marks_active_only_witness :
    0 < unreadPage.chatItems.length ∧
    (chatItemClick 0 unreadPage).chatItems = activate 0 unreadPage.chatItems :=
  ⟨by decide, ((select_marks_active_only unreadPage 0).2.2.2.2 (by decide)).1⟩

/-! ## Chat: is the message list append-only? -/

/-- What `showNotification` leaves alone. -/
theorem showNotification_untouched (message type : String) (s : Page) :
    (showNotification message type s).petsGridOpacity = s.petsGridOpacity ∧
    (showNotification message type s).searchBox = s.searchBox ∧
    (showNotification message type s).chatInput = s.chatInput ∧
    (showNotification message type s).drawn = s.drawn := by
  unfold showNotification
  cases s.notifImpl <;>
    simp [showNotificationDashboard, showNotificationSite, appendChild, setTimeout]

theorem newNotification_text (message type : String) (s : Page) :
    (newNotification message type s).text = message := by
  unfold newNotification
  cases s.notifImpl <;> rfl

/-- C16: with a search box that is empty or only white space, `performSearch`
does what `showNotification('Please enter a search term', 'error')` does and
nothing else: one notification of type `error` with that text is appended, the
only timer added is the 5000 ms callback of that notification, and the opacity of
the pets grid, the search box, the chat and the clock are unchanged. -/
theorem performSearch_blank (s : Page) (h : isBlank s.searchBox) :
    performSearch s = showNotification "Please enter a search term" "error" s ∧
    (performSearch s).body =
      s.body ++ [newNotification "Please enter a search term" "error" s] ∧
    notificationsOfType "error" (performSearch s) =
      notificationsOfType "error" s ++ [newNotification "Please enter a search term" "error" s] ∧
    (newNotification "Please enter a search term" "error" s).text =
      "Please enter a search term" ∧
    (performSearch s).timers =
      s.timers ++ [{ due := s.now + 5000, action := Action.autoRemove s.nextId }] ∧
    (performSearch s).petsGridOpacity = s.petsGridOpacity ∧
    (performSearch s).searchBox = s.searchBox ∧
    (performSearch s).chatMessages = s.chatMessages ∧
    (performSearch s).chatItems = s.chatItems ∧
    (performSearch s).now = s.now := by
  have hp := performSearch_of_blank s (jsTrim_of_blank s.searchBox h)
  rw [hp]
  have hu := showNotification_untouched "Please enter a search term" "error" s
  exact ⟨rfl, showNotification_body _ _ s, notificationsOfType_showNotification _ _ s,
    newNotification_text _ _ s, showNotification_timers _ _ s, hu.1, hu.2.1,
    showNotification_chatMessages _ _ s, showNotification_chatItems _ _ s,
    showNotification_now _ _ s⟩

theorem performSearch_blank_witness :
    isBlank blankSearchPage.searchBox ∧
    (performSearch blankSearchPage).petsGridOpacity = blankSearchPage.petsGridOpacity :=
  ⟨by decide, (performSearch_blank blankSearchPage (by decide)).2.2.2.2.2.1⟩

/-! ## Theme toggles -/

/-- C17 fails as stated: on a dark page, a click on `.theme-toggle` removes the
key `theme` from local storage; the stored value is then neither `light` nor
`dark`, and it is not the displayed theme `light`. -/
theorem theme_toggle_counterexample :
    (themeToggleClick darkTheme).stored = none ∧
    shownByAttribute (themeToggleClick darkTheme) = "light" ∧
    ¬ ((themeToggleClick darkTheme).stored = some "light" ∨
       (themeToggleClick darkTheme).stored = some "dark") := by
  decide

/-- C17 as amended: after a toggle by the `initTheme` listener, the
`#darkModeToggle` listener or the `#themeToggle` listener the stored value is
`light` or `dark` and is the theme displayed.  The `.theme-toggle` listener
stores `dark` when it switches to dark and removes the key when it switches to
light.  Two toggles restore the displayed theme (for the `initTheme` listener
when the attribute was `light` or `dark`, for `#darkModeToggle` when the box
agreed with the attribute) and restore the stored value when it agreed with the
display at the start. -/
theorem theme_toggles (s : ThemeState) :
    ((initThemeClick s).stored = some (shownByAttribute (initThemeClick s)) ∧
      ((initThemeClick s).stored = some "light" ∨ (initThemeClick s).stored = some "dark")) ∧
    ((darkModeToggleFlip s).stored = some (shownByAttribute (darkModeToggleFlip s)) ∧
      ((darkModeToggleFlip s).stored = some "light" ∨
        (darkModeToggleFlip s).stored = some "dark")) ∧
    ((themeToggleButtonClick s).stored = some (shownByClass (themeToggleButtonClick s)) ∧
      ((themeToggleButtonClick s).stored = some "light" ∨
        (themeToggleButtonClick s).stored = some "dark")) ∧
    ((themeToggleClick s).stored =
      (if shownByAttribute (themeToggleClick s) = "dark" then some "dark" else none)) ∧
    shownByAttribute (themeToggleClick (themeToggleClick s)) = shownByAttribute s ∧
    shownByClass (themeToggleButtonClick (themeToggleButtonClick s)) = shownByClass s ∧
    (s.dataTheme = some "light" ∨ s.dataTheme = some "dark" →
      (initThemeClick (initThemeClick s)).dataTheme = s.dataTheme) ∧
    (s.dataTheme = (if s.checked then some "dark" else none) →
      (darkModeToggleFlip (darkModeToggleFlip s)).dataTheme = s.dataTheme) ∧
    (s.stored = some (shownByAttribute s) →
      (s.dataTheme = some "light" ∨ s.dataTheme = some "dark") →
      (initThemeClick (initThemeClick s)).stored = s.stored) ∧
    (s.stored = (if s.checked then some "dark" else some "light") →
      (darkModeToggleFlip (darkModeToggleFlip s)).stored = s.stored) ∧
    (s.stored = some (shownByClass s) →
      (themeToggleButtonClick (themeToggleButtonClick s)).stored = s.stored) ∧
    (s.stored = (if shownByAttribute s = "dark" then some "dark" else none) →
      (themeToggleClick (themeToggleClick s)).stored = s.stored) := by
  obtain ⟨dataTheme, darkMode, checked, icon, stored⟩ := s
  refine ⟨?_, ?_, ?_, ?_, ?_, ?_, ?_, ?_, ?_, ?_, ?_, ?_⟩
  · by_cases h : dataTheme = some "light" <;>
      simp [initThemeClick, updateThemeIcon, shownByAttribute, h]
  · cases checked <;>
      simp [darkModeToggleFlip, darkModeToggleChange, shownByAttribute]
  · cases darkMode <;> simp [themeToggleButtonClick, shownByClass]
  · by_cases h : dataTheme = some "dark" <;>
      simp [themeToggleClick, shownByAttribute, h]
  · by_cases h : dataTheme = some "dark" <;>
      simp [themeToggleClick, shownByAttribute, h]
  · cases darkMode <;> simp [themeToggleButtonClick, shownByClass]
  · rintro (h | h) <;> simp only at h <;> subst h <;> simp [initThemeClick, updateThemeIcon]
  · intro h
    cases checked <;> simp_all [darkModeToggleFlip, darkModeToggleChange]
  · intro hs h
    rcases h with h | h <;> simp_all [initThemeClick, updateThemeIcon, shownByAttribute]
  · intro h
    cases checked <;> simp_all [darkModeToggleFlip, darkModeToggleChange]
  · intro h
    cases darkMode <;> simp_all [themeToggleButtonClick, shownByClass]
  · intro h
    by_cases hd : dataTheme = some "dark" <;>
      simp_all [themeToggleClick, shownByAttribute]

/-- On a page whose markup sets no theme, the start-up code leaves the attribute,
the check box and the class in agreement with the stored value. -/
theorem theme_startup_agreement (icon : String) (stored : Option String) :
    (darkModeToggleLoad
      { dataTheme := none, darkMode := false, checked := false, icon := icon,
        stored := stored }).dataTheme =
      (if (darkModeToggleLoad
        { dataTheme := none, darkMode := false, checked := false, icon := icon,
          stored := stored }).checked then some "dark" else none) ∧
    (initTheme
      { dataTheme := none, darkMode := false, checked := false, icon := icon,
        stored := stored }).dataTheme =
      some (storedOrLight
        { dataTheme := none, darkMode := false, checked := false, icon := icon,
          stored := stored }) ∧
    (shownByClass (themeToggleButtonLoad
      { dataTheme := none, darkMode := false, checked := false, icon := icon,
        stored := stored }) = "dark" ↔
      storedOrLight
        { dataTheme := none, darkMode := false, checked := false, icon := icon,
          stored := stored } = "dark") ∧
    (shownByAttribute (themeToggleLoad
      { dataTheme := none, darkMode := false, checked := false, icon := icon,
        stored := stored }) = "dark" ↔ stored = some "dark") := by
  refine ⟨?_, rfl, ?_, ?_⟩
  · unfold darkModeToggleLoad
    split <;> simp
  · unfold themeToggleButtonLoad
    split <;> simp_all [shownByClass]
  · unfold themeToggleLoad
    split <;> simp_all [shownByAttribute]

theorem theme_toggles_witness :
    darkTheme.stored = some (shownByClass darkTheme) ∧
    (themeToggleButtonClick (themeToggleButtonClick darkTheme)).stored = darkTheme.stored :=
  ⟨by decide, (theme_toggles darkTheme).2.2.2.2.2.2.2.2.2.2.1 (by decide)⟩

/-! ## Form validation -/

theorem trimChars_eq_nil_iff (l : List Char) :
    trimChars l = [] ↔ ∀ c ∈ l, isJsWhitespace c = true := by
  constructor
  · intro h
    unfold trimChars at h
    rw [List.reverse_eq_nil_iff, List.dropWhile_eq_nil_iff] at h
    have hd : l.dropWhile isJsWhitespace = [] := by
      cases hl : l.dropWhile isJsWhitespace with
      | nil => rfl
      | cons a rest =>
        have ha : isJsWhitespace a = true := h a (by rw [hl]; simp)
        have hhead := List.head_dropWhile_not isJsWhitespace l (by rw [hl]; simp)
        simp only [hl, List.head_cons] at hhead
        rw [ha] at hhead
        cases hhead
    exact List.dropWhile_eq_nil_iff.mp hd
  · exact trimChars_of_blank l

theorem jsTrim_eq_empty_iff (v : String) : jsTrim v = "" ↔ isBlank v := by
  unfold jsTrim isBlank
  rw [← trimChars_eq_nil_iff]
  constructor
  · intro h
    have := congrArg String.data h
    simpa using this
  · intro h
    rw [h]

theorem validateForm_fold (form : List FormField) (b : Bool) (done : List FormField) :
    form.foldl validateField (b, done) =
      (b && form.all (fun f => !isRequiredControl f || decide (jsTrim f.value ≠ "")),
        done ++ form.map markField) := by
  induction form generalizing b done with
  | nil => simp
  | cons f rest ih =>
    rw [List.foldl_cons]
    by_cases hr : isRequiredControl f = true
    · by_cases hv : jsTrim f.value = ""
      · have hstep : validateField (b, done) f =
            (false, done ++ [{ f with borderColor := "var(--error-color)" }]) := by
          simp [validateField, hr, hv]
        rw [hstep, ih]
        simp [markField, hr, hv]
      · have hstep : validateField (b, done) f = (b, done ++ [{ f with borderColor := "" }]) := by
          simp [validateField, hr, hv]
        rw [hstep, ih]
        simp [markField, hr, hv]
    · have hstep : validateField (b, done) f = (b, done ++ [f]) := by
        simp [validateField, hr]
      rw [hstep, ih]
      simp [markField, hr]

/-- C19: `validateForm` returns `true` exactly when every required input, select
and textarea of the form has a value that is not empty after trimming (is not
blank); after the call each of these fields has the error border colour when its
value is blank and an empty border colour otherwise, and every other field is as
it was. -/
theorem validateForm_spec (form : List FormField) :
    ((validateForm form).1 = true ↔
      ∀ f ∈ form, isRequiredControl f = true → ¬ isBlank f.value) ∧
    (validateForm form).2 = form.map markField ∧
    (∀ f, isRequiredControl f = true → isBlank f.value →
      markField f = { f with borderColor := "var(--error-color)" }) ∧
    (∀ f, isRequiredControl f = true → ¬ isBlank f.value →
      markField f = { f with borderColor := "" }) ∧
    (∀ f, isRequiredControl f = false → markField f = f) := by
  unfold validateForm
  rw [validateForm_fold]
  refine ⟨?_, by simp, ?_, ?_, ?_⟩
  · simp only [Bool.true_and, List.all_eq_true, Bool.or_eq_true, Bool.not_eq_true',
      decide_eq_true_eq]
    constructor
    · intro h f hf hreq
      rcases h f hf with h' | h'
      · rw [hreq] at h'
        cases h'
      · exact fun hb => h' ((jsTrim_eq_empty_iff f.value).mpr hb)
    · intro h f hf
      by_cases hreq : isRequiredControl f = true
      · exact Or.inr (fun ht => h f hf hreq ((jsTrim_eq_empty_iff f.value).mp ht))
      · exact Or.inl (by simpa using hreq)
  · intro f hreq hb
    simp [markField, hreq, (jsTrim_eq_empty_iff f.value).mpr hb]
  · intro f hreq hb
    have hne : jsTrim f.value ≠ "" := fun ht => hb ((jsTrim_eq_empty_iff f.value).mp ht)
    simp [markField, hreq, hne]
  · intro f hreq
    simp [markField, hreq]

theorem validateForm_spec_witness :
    isRequiredControl { tag := "input", required := true, value := "  ", borderColor := "" }
      = true ∧
    isBlank "  " ∧
    markField { tag := "input", required := true, value := "  ", borderColor := "" } =
      { tag := "input", required := true, value := "  ", borderColor := "var(--error-color)" } :=
  ⟨by decide, by decide,
    (validateForm_spec sampleForm).2.2.1
      { tag := "input", required := true, value := "  ", borderColor := "" }
      (by decide) (by decide)⟩

/-! ## Dashboard start-up -/

/-- C20, the code at the failing input: on a dashboard that has the
`View All Pets` link, the start-up code throws a `ReferenceError` for the
misspelt name `viewAllPatsLink` and installs no click listener on the link; the
listeners installed before line 40 stay. -/
theorem dashboardInit_throws_with_link :
    (dashboardInit dashboardWithLink).thrown =
      some "ReferenceError: viewAllPatsLink is not defined" ∧
    (dashboardInit dashboardWithLink).viewAllPetsListener = false ∧
    (dashboardInit dashboardWithLink).activityListeners = 3 := by
  decide

/-- The link never gets its listener, and the start-up code throws whenever the
link is there and the misspelt name is not bound. -/
theorem dashboardInit_link (p : DashboardPage) :
    (dashboardInit p).viewAllPetsListener = false ∧
    (p.viewAllPetsLink = true → p.globals.contains "viewAllPatsLink" = false →
      (dashboardInit p).thrown = some "ReferenceError: viewAllPatsLink is not defined") := by
  constructor
  · unfold dashboardInit
    split
    · split <;> rfl
    · rfl
  · intro hlink hglob
    have hloc : dashboardLocals.contains "viewAllPatsLink" = false := by decide
    unfold dashboardInit
    rw [if_pos hlink, hloc, hglob]
    rfl

end PetNest
